import Mathlib

/-!
Verification development for the Mini-project SQL-injection scanner
(`New_backend/app/services/new_sql_scanner.py` and
`New_backend/app/services/enhanced_sql_scanner.py`).

Python floats are modelled by exact rationals (`ℚ`); the arithmetic that the
verified properties depend on (comparisons against constants, `min`/`max`
clamping, multiplication by constant factors) is exact in both semantics.
Python strings are modelled by `String`.
-/

/-- Case-insensitive substring search, modelling
`re.search(re.escape(needle), hay, re.IGNORECASE)` and Python's `in`
on lowered strings: does `needle` occur contiguously in `hay`?  Both sides
are compared after ASCII lowercasing (Python `str.lower`). -/
def occursAt (needle hay : List Char) : Bool :=
  needle.isPrefixOf hay

/-- Does `needle` occur (case-sensitively) anywhere in `hay`? -/
def listInfix (needle hay : List Char) : Bool :=
  match hay with
  | [] => needle.isEmpty
  | _ :: t => needle.isPrefixOf hay || listInfix needle t

/-- Python `needle in hay` (case-sensitive substring test). -/
def strContains (hay needle : String) : Bool :=
  listInfix needle.data hay.data

/-- Python `str.lower()` (ASCII case folding suffices for the strings the
scanner compares). -/
def strLower (s : String) : String :=
  ⟨s.data.map Char.toLower⟩

/-- Case-insensitive substring test: models
`re.search(re.escape(needle), hay, re.IGNORECASE)`. -/
def strContainsCI (hay needle : String) : Bool :=
  strContains (strLower hay) (strLower needle)

lemma listInfix_of_isInfix {n h : List Char} (hinf : n <:+: h) :
    listInfix n h = true := by
  induction h with
  | nil =>
      rw [List.infix_nil] at hinf
      simp [listInfix, hinf, List.isEmpty]
  | cons c t ih =>
      rw [List.infix_cons_iff] at hinf
      rcases hinf with hpre | hinf
      · simp [listInfix, List.isPrefixOf_iff_prefix, hpre]
      · simp [listInfix, ih hinf]

/-- Any decomposition `s = l ++ x ++ r` witnesses `x in s`. -/
lemma strContains_of_parts (s x : String) (l r : List Char)
    (h : s.data = l ++ x.data ++ r) : strContains s x = true := by
  unfold strContains
  exact listInfix_of_isInfix ⟨l, r, by rw [h]⟩

namespace NewScanner

/-!
### RateLimiter (`new_sql_scanner.py`, lines 40–254)

The Python class keys every piece of state by domain (`defaultdict`); no
operation on one domain reads or writes another domain's entries, so the
state of one host is modelled as a single record.  `time.time()` only enters
`acquire` through `current_time - self.last_request_time[domain]`, so
`acquire` is parameterised by that elapsed time (non-negative for a monotone
clock).
-/

/-- Per-host rate-limiter state (`RateLimiter.__init__`, per-domain slices of
the `defaultdict`s). -/
structure RLState where
  /-- `self.token_bucket[domain]`, initially `burst_limit`. -/
  tokens : ℚ
  /-- `self.domain_limits[domain]`, initially `rate_limit`. -/
  limit : ℚ
  /-- `self.domain_failures[domain]`. -/
  failures : ℕ
  /-- `self.domain_successes[domain]`. -/
  successes : ℕ
  /-- `self.consecutive_errors[domain]`. -/
  consecutiveErrors : ℕ
  /-- `self.consecutive_successes[domain]`. -/
  consecutiveSuccesses : ℕ
  /-- `self.response_times[domain]` (bounded FIFO, cap 10). -/
  responseTimes : List ℚ
  /-- `self.domain_error_types[domain]["critical"]`. -/
  criticalErrors : ℕ
  /-- `self.performance_data[domain]["avg_response_time"]`. -/
  avgResponseTime : ℚ
  /-- `self.performance_data[domain]["error_rate"]`. -/
  errorRate : ℚ
  deriving Repr, DecidableEq

/-- Configured constants of one `RateLimiter` instance. -/
structure RLConfig where
  /-- `self.rate_limit` (constructor argument, default 2.0). -/
  rateLimit : ℚ
  /-- `self.burst_limit` (constructor argument, default 5). -/
  burstLimit : ℚ
  deriving Repr, DecidableEq

/-- `self.max_rate_limit = rate_limit * 5.0`. -/
def RLConfig.maxRate (c : RLConfig) : ℚ := c.rateLimit * 5

/-- `self.min_rate_limit = 0.1`. -/
def RLConfig.minRate (_c : RLConfig) : ℚ := 1/10

/-- Initial per-host state created lazily by the `defaultdict`s. -/
def RLState.init (c : RLConfig) : RLState :=
  { tokens := c.burstLimit
    limit := c.rateLimit
    failures := 0
    successes := 0
    consecutiveErrors := 0
    consecutiveSuccesses := 0
    responseTimes := []
    criticalErrors := 0
    avgResponseTime := 0
    errorRate := 0 }

/-- `RateLimiter.acquire` (lines 74–102).  `elapsed` is
`current_time - self.last_request_time[domain]`; tokens refill by
`elapsed * domain_limits[domain]` capped at `burst_limit`, and one token is
consumed when at least one is available.  The returned flag is the method's
result. -/
def acquire (c : RLConfig) (s : RLState) (elapsed : ℚ) : RLState × Bool :=
  let refilled := min (s.tokens + elapsed * s.limit) c.burstLimit
  if refilled ≥ 1 then
    ({ s with tokens := refilled - 1 }, true)
  else
    ({ s with tokens := refilled }, false)

/-- The error-rate recomputation shared by `report_error` and
`report_success`: `domain_failures / (domain_failures + domain_successes)`
when any request has completed, otherwise the stored value is untouched. -/
def newErrorRate (failures successes : ℕ) (old : ℚ) : ℚ :=
  if failures + successes > 0 then (failures : ℚ) / ((failures + successes : ℕ) : ℚ)
  else old

/-- The rate adjustment of `report_response_time` (lines 159–172): +20 %
capped at `max_rate_limit` when the average is fast and ≥ 5 consecutive
successes, −20 % floored at `min_rate_limit` when the average is slow. -/
def responseTimeNewLimit (c : RLConfig) (limit avg : ℚ) (cs : ℕ) : ℚ :=
  if avg < 1/2 ∧ cs ≥ 5 then
    let newRate := min c.maxRate (limit * (12/10))
    if newRate > limit then newRate else limit
  else if avg > 2 then
    let newRate := max c.minRate (limit * (8/10))
    if newRate < limit then newRate else limit
  else limit

/-- `RateLimiter.report_response_time` (lines 139–172): push the sample into
the 10-entry window, recompute the average into `performance_data`, then
adjust the limit.  (The window is nonempty after the append, so the
`if self.response_times[domain]:` guard of the source is always taken.) -/
def reportResponseTime (c : RLConfig) (s : RLState) (rt : ℚ) : RLState :=
  let window0 := s.responseTimes ++ [rt]
  let window := if window0.length > 10 then window0.tail else window0
  let avg := window.sum / (window.length : ℚ)
  { s with
    responseTimes := window
    avgResponseTime := avg
    limit := responseTimeNewLimit c s.limit avg s.consecutiveSuccesses }

/-- The rate reduction of `report_error` (lines 197–203): halve on critical
errors, ×0.7 on ≥ 3 consecutive errors, floored at `min_rate_limit`;
`ce` is the already-incremented consecutive-error count. -/
def errorNewLimit (c : RLConfig) (limit : ℚ) (critical : Bool) (ce : ℕ) : ℚ :=
  if critical = true ∨ ce ≥ 3 then
    max c.minRate (limit * (if critical then 1/2 else 7/10))
  else limit

/-- `RateLimiter.report_error` (lines 174–206).  `critical` is
`error_type == "critical"`. -/
def reportError (c : RLConfig) (s : RLState) (critical : Bool) : RLState :=
  { s with
    consecutiveErrors := s.consecutiveErrors + 1
    consecutiveSuccesses := 0
    criticalErrors := s.criticalErrors + (if critical then 1 else 0)
    errorRate := newErrorRate s.failures s.successes s.errorRate
    limit := errorNewLimit c s.limit critical (s.consecutiveErrors + 1)
    failures := s.failures + 1 }

/-- The gradual restore of `report_success` (lines 235–241): below the base
rate and with ≥ 5 consecutive successes, increase by up to 20 %, capped at
the configured base rate. -/
def successNewLimit (c : RLConfig) (limit : ℚ) (cs : ℕ) : ℚ :=
  if limit < c.rateLimit ∧ cs ≥ 5 then
    let increaseFactor := min (12/10 : ℚ) (1 + (cs : ℚ) * (2/100))
    let newRate := min c.rateLimit (limit * increaseFactor)
    if newRate > limit then newRate else limit
  else limit

/-- `RateLimiter.report_success` (lines 208–241): bump the success counters,
feed the response time to `report_response_time` when positive, recompute
the error rate, then gradually restore the limit. -/
def reportSuccess (c : RLConfig) (s : RLState) (rt : ℚ) : RLState :=
  let s1 := { s with
    consecutiveSuccesses := s.consecutiveSuccesses + 1
    consecutiveErrors := 0
    successes := s.successes + 1 }
  let s2 := if rt > 0 then reportResponseTime c s1 rt else s1
  let s3 := { s2 with errorRate := newErrorRate s2.failures s2.successes s2.errorRate }
  { s3 with limit := successNewLimit c s3.limit s3.consecutiveSuccesses }

/-- One externally-visible call on the rate limiter.  `acquire` carries the
elapsed wall-clock time since the host's last admitted request. -/
inductive RLEvent where
  | acquire (elapsed : ℚ)
  | reportError (critical : Bool)
  | reportSuccess (rt : ℚ)
  deriving Repr, DecidableEq

/-- A call is well-formed when the elapsed time fed to `acquire` is
non-negative (a monotone clock). -/
def RLEvent.wf : RLEvent → Prop
  | .acquire e => 0 ≤ e
  | _ => True

instance : DecidablePred RLEvent.wf := by
  intro e; cases e <;> simp [RLEvent.wf] <;> infer_instance

/-- Apply one call to the per-host state. -/
def RLState.step (c : RLConfig) (s : RLState) : RLEvent → RLState
  | .acquire e => (acquire c s e).1
  | .reportError critical => reportError c s critical
  | .reportSuccess rt => reportSuccess c s rt

/-- Run a sequence of calls from the initial state. -/
def RLState.run (c : RLConfig) (evs : List RLEvent) : RLState :=
  evs.foldl (RLState.step c) (RLState.init c)

/-- The invariant of the spec: current rate within `[minRate, maxRate]` and
token count within `[0, burstCapacity]`. -/
def RLInv (c : RLConfig) (s : RLState) : Prop :=
  c.minRate ≤ s.limit ∧ s.limit ≤ c.maxRate ∧ 0 ≤ s.tokens ∧ s.tokens ≤ c.burstLimit

instance (c : RLConfig) (s : RLState) : Decidable (RLInv c s) := by
  unfold RLInv; infer_instance

lemma RLInv.init (c : RLConfig) (hbase : 1/10 ≤ c.rateLimit) (hburst : 0 ≤ c.burstLimit) :
    RLInv c (RLState.init c) := by
  refine ⟨hbase, ?_, hburst, le_refl _⟩
  have : (0:ℚ) ≤ c.rateLimit := le_trans (by norm_num) hbase
  simp only [RLState.init, RLConfig.maxRate]
  nlinarith

lemma minRate_le_maxRate (c : RLConfig) (hbase : 1/10 ≤ c.rateLimit) :
    c.minRate ≤ c.maxRate := by
  simp only [RLConfig.minRate, RLConfig.maxRate]
  nlinarith

/-- The limit interval `[minRate, maxRate]`. -/
def LimitInv (c : RLConfig) (limit : ℚ) : Prop :=
  c.minRate ≤ limit ∧ limit ≤ c.maxRate

lemma LimitInv.responseTimeNewLimit (c : RLConfig) (limit avg : ℚ) (cs : ℕ)
    (h : LimitInv c limit) :
    LimitInv c (NewScanner.responseTimeNewLimit c limit avg cs) := by
  obtain ⟨h1, h2⟩ := h
  unfold NewScanner.responseTimeNewLimit
  split
  · dsimp only; split
    · exact ⟨le_of_lt (lt_of_le_of_lt h1 (by assumption)), min_le_left _ _⟩
    · exact ⟨h1, h2⟩
  · split
    · dsimp only; split
      · exact ⟨le_max_left _ _, le_trans (le_of_lt (by assumption)) h2⟩
      · exact ⟨h1, h2⟩
    · exact ⟨h1, h2⟩

lemma LimitInv.errorNewLimit (c : RLConfig) (limit : ℚ) (critical : Bool) (ce : ℕ)
    (hbase : 1/10 ≤ c.rateLimit) (h : LimitInv c limit) :
    LimitInv c (NewScanner.errorNewLimit c limit critical ce) := by
  obtain ⟨h1, h2⟩ := h
  have hlim0 : (0:ℚ) ≤ limit := le_trans (by simp [RLConfig.minRate]) h1
  unfold NewScanner.errorNewLimit
  split
  · refine ⟨le_max_left _ _, max_le (minRate_le_maxRate c hbase) (le_trans ?_ h2)⟩
    split <;> nlinarith
  · exact ⟨h1, h2⟩

lemma LimitInv.successNewLimit (c : RLConfig) (limit : ℚ) (cs : ℕ)
    (hbase : 1/10 ≤ c.rateLimit) (h : LimitInv c limit) :
    LimitInv c (NewScanner.successNewLimit c limit cs) := by
  obtain ⟨h1, h2⟩ := h
  have hrl : c.rateLimit ≤ c.maxRate := by
    simp only [RLConfig.maxRate]
    nlinarith [le_trans (by norm_num : (0:ℚ) ≤ 1/10) hbase]
  unfold NewScanner.successNewLimit
  split
  · dsimp only; split
    · exact ⟨le_of_lt (lt_of_le_of_lt h1 (by assumption)),
        le_trans (min_le_left _ _) hrl⟩
    · exact ⟨h1, h2⟩
  · exact ⟨h1, h2⟩

lemma RLInv.reportResponseTime (c : RLConfig) (s : RLState) (rt : ℚ)
    (h : RLInv c s) :
    RLInv c (NewScanner.reportResponseTime c s rt) := by
  obtain ⟨h1, h2, h3, h4⟩ := h
  have := LimitInv.responseTimeNewLimit c s.limit
    ((if (s.responseTimes ++ [rt]).length > 10 then (s.responseTimes ++ [rt]).tail
      else s.responseTimes ++ [rt]).sum /
     ((if (s.responseTimes ++ [rt]).length > 10 then (s.responseTimes ++ [rt]).tail
       else s.responseTimes ++ [rt]).length : ℚ))
    s.consecutiveSuccesses ⟨h1, h2⟩
  exact ⟨this.1, this.2, h3, h4⟩

lemma RLInv.reportError (c : RLConfig) (s : RLState) (critical : Bool)
    (hbase : 1/10 ≤ c.rateLimit) (h : RLInv c s) :
    RLInv c (NewScanner.reportError c s critical) := by
  obtain ⟨h1, h2, h3, h4⟩ := h
  have := LimitInv.errorNewLimit c s.limit critical (s.consecutiveErrors + 1)
    hbase ⟨h1, h2⟩
  exact ⟨this.1, this.2, h3, h4⟩

lemma RLInv.reportSuccess (c : RLConfig) (s : RLState) (rt : ℚ)
    (hbase : 1/10 ≤ c.rateLimit) (h : RLInv c s) :
    RLInv c (NewScanner.reportSuccess c s rt) := by
  unfold NewScanner.reportSuccess
  dsimp only
  have h1 : RLInv c { s with
      consecutiveSuccesses := s.consecutiveSuccesses + 1
      consecutiveErrors := 0
      successes := s.successes + 1 } :=
    ⟨h.1, h.2.1, h.2.2.1, h.2.2.2⟩
  split <;> rename_i hrt
  · have h2 := RLInv.reportResponseTime c _ rt h1
    have := LimitInv.successNewLimit c _
      (NewScanner.reportResponseTime c { s with
        consecutiveSuccesses := s.consecutiveSuccesses + 1
        consecutiveErrors := 0
        successes := s.successes + 1 } rt).consecutiveSuccesses
      hbase ⟨h2.1, h2.2.1⟩
    exact ⟨this.1, this.2, h2.2.2.1, h2.2.2.2⟩
  · have := LimitInv.successNewLimit c _ (s.consecutiveSuccesses + 1) hbase
      ⟨h1.1, h1.2.1⟩
    exact ⟨this.1, this.2, h1.2.2.1, h1.2.2.2⟩

lemma RLInv.acquire (c : RLConfig) (s : RLState) (e : ℚ)
    (he : 0 ≤ e) (h : RLInv c s) :
    RLInv c (NewScanner.acquire c s e).1 := by
  obtain ⟨h1, h2, h3, h4⟩ := h
  have hlim0 : (0:ℚ) ≤ s.limit := le_trans (by simp [RLConfig.minRate]) h1
  have hrefill0 : 0 ≤ min (s.tokens + e * s.limit) c.burstLimit := by
    have hburst0 : (0:ℚ) ≤ c.burstLimit := le_trans h3 h4
    refine le_min ?_ hburst0
    nlinarith
  unfold NewScanner.acquire
  dsimp only
  split <;> rename_i hge <;> dsimp only
  · refine ⟨h1, h2, ?_, ?_⟩
    · show (0:ℚ) ≤ (s.tokens + e * s.limit) ⊓ c.burstLimit - 1
      linarith
    · show (s.tokens + e * s.limit) ⊓ c.burstLimit - 1 ≤ c.burstLimit
      have := min_le_right (s.tokens + e * s.limit) c.burstLimit
      linarith
  · refine ⟨h1, h2, hrefill0, min_le_right _ _⟩

lemma RLInv.step (c : RLConfig) (s : RLState) (ev : RLEvent)
    (hbase : 1/10 ≤ c.rateLimit) (hwf : ev.wf) (h : RLInv c s) :
    RLInv c (RLState.step c s ev) := by
  cases ev with
  | acquire e => exact RLInv.acquire c s e hwf h
  | reportError critical => exact RLInv.reportError c s critical hbase h
  | reportSuccess rt => exact RLInv.reportSuccess c s rt hbase h

lemma RLInv.foldl (c : RLConfig) (hbase : 1/10 ≤ c.rateLimit)
    (evs : List RLEvent) (hwf : ∀ ev ∈ evs, ev.wf) (s : RLState) (h : RLInv c s) :
    RLInv c (evs.foldl (RLState.step c) s) := by
  induction evs generalizing s with
  | nil => exact h
  | cons ev rest ih =>
      exact ih (fun x hx => hwf x (List.mem_cons_of_mem ev hx)) _
        (RLInv.step c s ev hbase (hwf ev (List.mem_cons_self ev rest)) h)

/-!
### Response similarity (`new_sql_scanner.py`, lines 2352–2427)
-/

/-- Number of positions where the two strings agree, i.e. Python's
`sum(1 for c1, c2 in zip(str1, str2) if c1 == c2)`. -/
def commonChars (a b : String) : ℕ :=
  ((a.data.zip b.data).filter (fun p => p.1 = p.2)).length

/-- `EnhancedSQLScanner._similarity_score` (lines 2398–2427): empty input on
either side scores 0.0; very different lengths short-circuit to half the
length ratio; otherwise 0.4 × length ratio + 0.6 × positional-match ratio. -/
def similarityScore (a b : String) : ℚ :=
  if a.length = 0 ∨ b.length = 0 then 0
  else
    let lengthRatio : ℚ := (min a.length b.length : ℚ) / (max a.length b.length : ℚ)
    if lengthRatio < 1/2 then lengthRatio * (1/2)
    else
      let maxLength : ℚ := (max a.length b.length : ℚ)
      let commonRatio : ℚ := (commonChars a b : ℚ) / maxLength
      lengthRatio * (4/10) + commonRatio * (6/10)

/-- `EnhancedSQLScanner._generate_response_fingerprint` (lines 2352–2396),
restricted to markup-free bodies: for content in which `BeautifulSoup` finds
no heading/title/paragraph elements the function returns
`"||".join(content[i:i+50] for i in range(0, min(500, len(content)), 100))`.
This is the code path taken by every plain-text body (including the empty
body). -/
def fingerprintPlain (content : String) : String :=
  let n := content.length
  let starts := (List.range ((min 500 n + 99) / 100)).map (fun k => k * 100)
  String.intercalate "||" (starts.map (fun i => ⟨(content.data.drop i).take 50⟩))

lemma commonChars_self (a : String) : commonChars a a = a.length := by
  unfold commonChars
  rw [String.length]
  induction a.data with
  | nil => simp
  | cons c t ih => simpa [List.zip] using ih

lemma commonChars_comm (a b : String) : commonChars a b = commonChars b a := by
  unfold commonChars
  obtain ⟨la⟩ := a
  obtain ⟨lb⟩ := b
  dsimp only
  induction la generalizing lb with
  | nil => cases lb <;> simp [List.zip]
  | cons c t ih =>
      cases lb with
      | nil => simp [List.zip]
      | cons d u =>
          by_cases hcd : c = d
          · subst hcd
            simpa [List.zip] using ih u
          · have hdc : ¬ d = c := fun h => hcd h.symm
            simpa [List.zip, hcd, hdc] using ih u

lemma similarityScore_self (a : String) (h : a.length ≠ 0) :
    similarityScore a a = 1 := by
  unfold similarityScore
  have hpos : (0:ℚ) < (a.length : ℚ) := by
    exact_mod_cast Nat.pos_of_ne_zero h
  rw [if_neg (by simp [h])]
  simp only [min_self, max_self, commonChars_self]
  rw [if_neg (by rw [div_self (ne_of_gt hpos)]; norm_num)]
  rw [div_self (ne_of_gt hpos)]
  norm_num

lemma similarityScore_comm (a b : String) :
    similarityScore a b = similarityScore b a := by
  unfold similarityScore
  rw [min_comm ((a.length : ℚ)) ((b.length : ℚ)),
    max_comm ((a.length : ℚ)) ((b.length : ℚ)), commonChars_comm a b]
  by_cases ha : a.length = 0 <;> by_cases hb : b.length = 0 <;>
    simp [ha, hb, or_comm]

lemma fingerprintPlain_empty : fingerprintPlain "" = "" := by
  decide

/-!
### Error-based detection (`new_sql_scanner.py`, lines 1707–1795 and
1937–1997)

The DBMS error catalogue `sql_error_patterns` is data, not logic; the
control flow is embedded parameterised by a list of pattern matchers
(`String → Bool`), and the regular expressions needed by the concrete
evaluations are implemented below.  `re.search` over a pattern `A\s+B` has
a match iff `A`, one or more whitespace characters, and `B` occur in
sequence (for searching, a trailing `s?` or a `+` on a character class
never changes whether a match exists).
-/

/-- A vulnerability dictionary of `new_sql_scanner.py` (keys `name`,
`description`, `severity`, `url`, `parameter`, `evidence`,
`remediation`); the `id` field (`str(uuid.uuid4())`, a fresh random
identifier) is not modelled. -/
structure FindingN where
  name : String
  description : String
  severity : String
  url : String
  parameter : String
  evidence : String
  remediation : String
  deriving Repr, DecidableEq

/-- Python's `\s` (ASCII range; the strings compared here are ASCII). -/
def pyIsSpace (c : Char) : Bool :=
  c = ' ' ∨ c = '\t' ∨ c = '\n' ∨ c = '\r' ∨ c = '\x0b' ∨ c = '\x0c'

/-- After one or more whitespace characters, `b` is a prefix. -/
def wsThenPrefix (b : List Char) : List Char → Bool
  | [] => false
  | c :: t => pyIsSpace c && (b.isPrefixOf t || wsThenPrefix b t)

/-- After one or more whitespace characters, a decimal digit follows. -/
def wsThenDigit : List Char → Bool
  | [] => false
  | c :: t =>
      pyIsSpace c &&
        ((match t with | d :: _ => d.isDigit | [] => false) || wsThenDigit t)

/-- Search for `a`, whitespace⁺, `b` anywhere in the character list. -/
def searchTwoTokens (a b : List Char) : List Char → Bool
  | [] => false
  | c :: t =>
      (a.isPrefixOf (c :: t) && wsThenPrefix b ((c :: t).drop a.length)) ||
        searchTwoTokens a b t

/-- Search for `a`, whitespace⁺, digit anywhere in the character list. -/
def searchTokenDigit (a : List Char) : List Char → Bool
  | [] => false
  | c :: t =>
      (a.isPrefixOf (c :: t) && wsThenDigit ((c :: t).drop a.length)) ||
        searchTokenDigit a t

/-- Search for `a` immediately followed by a digit. -/
def searchLitDigit (a : List Char) : List Char → Bool
  | [] => false
  | c :: t =>
      (a.isPrefixOf (c :: t) &&
        (match (c :: t).drop a.length with | d :: _ => d.isDigit | [] => false)) ||
        searchLitDigit a t

/-- `re.search(r"A\s+B", s, re.IGNORECASE)` as a Boolean. -/
def searchLitWsLit (a b s : String) : Bool :=
  searchTwoTokens (strLower a).data (strLower b).data (strLower s).data

/-- `re.search(r"A\s+\d+", s, re.IGNORECASE)` as a Boolean. -/
def searchLitWsDigit (a s : String) : Bool :=
  searchTokenDigit (strLower a).data (strLower s).data

/-- The Oracle entry `r"ora-[0-9]"` of `sql_error_patterns` (line 354),
applied with `re.IGNORECASE`. -/
def oraErrorPattern (s : String) : Bool :=
  searchLitDigit "ora-".data (strLower s).data

/-- The `false_positive_patterns` of `_check_false_positive`
(lines 1964–1978); `SQL\s+examples?` matches iff `SQL\s+example` does, and
`SQL\s+\d+` iff `SQL\s+\d` does, so those are searched in the reduced
form. -/
def fpPhrases : List (String → Bool) :=
  [searchLitWsLit "SQL" "tutorial", searchLitWsLit "SQL" "database",
   searchLitWsLit "SQL" "server", searchLitWsLit "learn" "SQL",
   searchLitWsLit "SQL" "query", searchLitWsDigit "SQL",
   searchLitWsLit "SQL" "basics", searchLitWsLit "SQL" "example",
   searchLitWsLit "using" "SQL", searchLitWsLit "about" "SQL",
   searchLitWsLit "SQL" "language", searchLitWsLit "SQL" "course",
   searchLitWsLit "SQL" "training"]

/-- `re.search(r'(mysql|sqlstate|syntax|oracle|sql\s+server)', s,
re.IGNORECASE)` (line 1993). -/
def sqlDetailPresent (s : String) : Bool :=
  strContainsCI s "mysql" || strContainsCI s "sqlstate" ||
    strContainsCI s "syntax" || strContainsCI s "oracle" ||
    searchLitWsLit "sql" "server" s

/-- `EnhancedSQLScanner._check_false_positive` (lines 1937–1997).  The
`any(... for pattern in self.sql_error_patterns)` on line 1993 ignores its
loop variable; since the pattern table is nonempty it equals the inner
search itself. -/
def checkFalsePositive (baseline response payload originalValue : String) : Bool :=
  if baseline = response then true
  else if strContainsCI response payload &&
      (!originalValue.isEmpty && strContainsCI baseline originalValue) then true
  else if fpPhrases.any (fun m => m baseline && m response) then true
  else if strContains response "404 Not Found" &&
      !strContains baseline "404 Not Found" then true
  else if strContains response "500 Internal Server Error" &&
      !strContains baseline "500 Internal Server Error" &&
      !sqlDetailPresent response then true
  else false

/-- The vulnerability dictionary built on an error-pattern match
(lines 1745–1774).  `identifyDbms` abstracts `_identify_dbms_from_error`
and `errorEvidence` the context-snippet extraction and truncation of lines
1750–1761; neither influences whether a Finding is produced.  The
`additional_info` follow-up (lines 1781–1788) augments an already-accepted
Finding and is not modelled. -/
def mkErrorFinding (identifyDbms errorEvidence : String → String)
    (url param payload response : String) : FindingN :=
  let dbms := identifyDbms response
  let dbmsInfo := if dbms ≠ "" then " (" ++ dbms ++ ")" else ""
  { name := "SQL Injection" ++ dbmsInfo
    description := "SQL injection vulnerability detected in parameter '" ++
      param ++ "'. The application reveals SQL errors that can be exploited."
    severity := "high"
    url := url
    parameter := param
    evidence := "Payload: " ++ payload ++ "\nError: " ++ errorEvidence response
    remediation := "Use parameterized queries or prepared statements. Validate and sanitize all user inputs." }

/-- The `for pattern in self.sql_error_patterns` loop of lines 1743–1791:
the first matching pattern builds a Finding; if `_check_false_positive`
rejects it the loop continues with the next pattern. -/
def errorPatternLoop (identifyDbms errorEvidence : String → String)
    (url param paramValue baseline payload response : String) :
    List (String → Bool) → Option FindingN
  | [] => none
  | p :: ps =>
      if p response then
        if checkFalsePositive baseline response payload paramValue then
          errorPatternLoop identifyDbms errorEvidence url param paramValue
            baseline payload response ps
        else some (mkErrorFinding identifyDbms errorEvidence url param payload response)
      else
        errorPatternLoop identifyDbms errorEvidence url param paramValue
          baseline payload response ps

/-- The per-payload loop of `_test_error_sqli` (lines 1724–1791):
`oracle k` is the response of the `k`-th `_send_payload_request`; a missing
response skips the payload; a response is skipped when the baseline already
matched some pattern *and* the response is byte-identical to the baseline
(line 1739); otherwise the pattern loop runs. -/
def errorPayloadLoop (patterns : List (String → Bool))
    (identifyDbms errorEvidence : String → String)
    (url param paramValue baseline : String) (oracle : ℕ → Option String)
    (hasBaselineErrors : Bool) : List String → ℕ → Option FindingN
  | [], _ => none
  | payload :: rest, k =>
      match oracle k with
      | none =>
          errorPayloadLoop patterns identifyDbms errorEvidence url param
            paramValue baseline oracle hasBaselineErrors rest (k+1)
      | some response =>
          if hasBaselineErrors = true ∧ response = baseline then
            errorPayloadLoop patterns identifyDbms errorEvidence url param
              paramValue baseline oracle hasBaselineErrors rest (k+1)
          else
            match errorPatternLoop identifyDbms errorEvidence url param
                paramValue baseline payload response patterns with
            | some v => some v
            | none =>
                errorPayloadLoop patterns identifyDbms errorEvidence url param
                  paramValue baseline oracle hasBaselineErrors rest (k+1)

/-- `EnhancedSQLScanner._test_error_sqli` (lines 1707–1795), from the point
where the baseline response has been captured: compute
`has_baseline_errors` (lines 1721–1722), then test each selected
payload. -/
def testErrorSqli (patterns : List (String → Bool))
    (identifyDbms errorEvidence : String → String)
    (url param paramValue : String) (payloads : List String)
    (baseline : String) (oracle : ℕ → Option String) : Option FindingN :=
  errorPayloadLoop patterns identifyDbms errorEvidence url param paramValue
    baseline oracle (patterns.any (fun p => p baseline)) payloads 0

/-- A baseline body that already contains the Oracle error text. -/
def c3Baseline : String := "ORA-00001: unique constraint violated"

/-- A payload response containing the same error text but not byte-identical
to the baseline. -/
def c3Response : String :=
  "ORA-00001: unique constraint violated while processing the request"

/-- The response schedule of the error-based evaluation. -/
def c3Oracle : ℕ → Option String :=
  fun k => if k = 0 then some c3Response else none

/-!
### Boolean-blind detection (`new_sql_scanner.py`, lines 2164–2242 and
3014–3069)

-/

/-- One entry of the list built by `_generate_boolean_test_payloads`
(`{"payload": …, "expected_result": …, "type": "boolean"}`; the constant
`type` key is omitted). -/
structure BoolPayload where
  payload : String
  expected : Bool
  deriving Repr, DecidableEq

/-- `random.randint(10, 99)`: the `k`-th draw of the pseudo-random stream,
mapped into the inclusive range 10–99. -/
def randint1099 (rng : ℕ → ℕ) (k : ℕ) : ℕ := 10 + rng k % 90

/-- The FALSE-condition format string of `_generate_boolean_test_payloads`
(lines 3039–3042), also used for the TRUE condition with `v2 = v1`. -/
def booleanFmt (param sep : String) (paren : Bool) (v1 v2 pad : ℕ) : String :=
  if paren then
    param ++ sep ++ ") AND " ++ toString v1 ++ "=" ++ toString v2 ++
      " AND (" ++ sep ++ toString pad ++ sep ++ "=" ++ sep ++ toString pad
  else
    param ++ sep ++ " AND " ++ toString v1 ++ "=" ++ toString v2 ++
      " AND " ++ sep ++ toString pad ++ sep ++ "=" ++ sep ++ toString pad

/-- The four payloads emitted for one (parenthesis, separator) combination:
two FALSE tests (3 random draws each) followed by two TRUE tests (2 draws
each); `base` is the index of the combination's first random draw. -/
def booleanCombo (rng : ℕ → ℕ) (param sep : String) (paren : Bool) (base : ℕ) :
    List BoolPayload :=
  let neg := fun o =>
    let v1 := randint1099 rng o
    let v2 := randint1099 rng (o+1) + v1
    let pad := randint1099 rng (o+2)
    BoolPayload.mk (booleanFmt param sep paren v1 v2 pad) false
  let pos := fun o =>
    let v1 := randint1099 rng o
    let pad := randint1099 rng (o+1)
    BoolPayload.mk (booleanFmt param sep paren v1 v1 pad) true
  [neg base, neg (base+3), pos (base+6), pos (base+8)]

/-- `EnhancedSQLScanner._generate_boolean_test_payloads` (lines 3014–3069):
for `use_parenthesis in (False, True)` and `separator in ("", "'", "\"")`,
emit two FALSE tests followed by two TRUE tests. -/
def generateBooleanTestPayloads (rng : ℕ → ℕ) (param : String) : List BoolPayload :=
  booleanCombo rng param "" false 0 ++
  booleanCombo rng param "'" false 10 ++
  booleanCombo rng param "\"" false 20 ++
  booleanCombo rng param "" true 30 ++
  booleanCombo rng param "'" true 40 ++
  booleanCombo rng param "\"" true 50

/-- A response dictionary as consumed by the boolean-blind loop (`text` and
`status` keys). -/
structure RespB where
  text : String
  status : ℕ
  deriving Repr, DecidableEq

/-- An entry of `boolean_results` (lines 2217–2222). -/
structure BoolFlag where
  truePayload : String
  falsePayload : String
  differenceScore : ℚ
  baselineMatch : ℚ
  deriving Repr, DecidableEq

/-- The flagging condition of lines 2204–2215: (a) TRUE resembles the
baseline (> 0.8) while FALSE does not (< 0.6), or (b) TRUE and FALSE differ
in fingerprint (< 0.7) and in length (> 50 chars), or (c) only TRUE matches
the baseline status code. -/
def boolHit (baselineFp : String) (baselineStatus : ℕ)
    (trueFp falseFp : String) (trueResp falseResp : RespB) : Prop :=
  (similarityScore baselineFp trueFp > 8/10 ∧
     similarityScore baselineFp falseFp < 6/10) ∨
  (similarityScore trueFp falseFp < 7/10 ∧
     |(trueResp.text.length : ℤ) - (falseResp.text.length : ℤ)| > 50) ∨
  (trueResp.status = baselineStatus ∧ falseResp.status ≠ baselineStatus)

instance (bf : String) (bs : ℕ) (tf ff : String) (tr fr : RespB) :
    Decidable (boolHit bf bs tf ff tr fr) := by
  unfold boolHit; infer_instance

/-- The pairing loop of `_test_blind_sqli` (lines 2168–2222): payloads are
taken two at a time (`range(0, len, 2)`, a trailing odd element is
skipped); a pair is accepted only when the first element expects TRUE and
the second expects FALSE; each accepted pair costs one request for the TRUE
payload and, when that succeeds, one for the FALSE payload.  `fingerprint`
abstracts `_generate_response_fingerprint` (tag soup parsing is outside the
embedding; `fingerprintPlain` is its restriction to markup-free bodies).
`oracle k` is the outcome of the `k`-th `_send_payload_request` of this
loop.  Returns the number of requests issued and `boolean_results`. -/
def booleanPairLoop (fingerprint : String → String) (baselineFp : String)
    (baselineStatus : ℕ) (oracle : ℕ → Option RespB) :
    List BoolPayload → ℕ → ℕ × List BoolFlag
  | tp :: fp :: rest, k =>
      if tp.expected = true ∧ fp.expected = false then
        match oracle k with
        | none =>
            let r := booleanPairLoop fingerprint baselineFp baselineStatus oracle rest (k+1)
            (r.1 + 1, r.2)
        | some trueResp =>
            match oracle (k+1) with
            | none =>
                let r := booleanPairLoop fingerprint baselineFp baselineStatus oracle rest (k+2)
                (r.1 + 2, r.2)
            | some falseResp =>
                let trueFp := fingerprint trueResp.text
                let falseFp := fingerprint falseResp.text
                let r := booleanPairLoop fingerprint baselineFp baselineStatus oracle rest (k+2)
                if boolHit baselineFp baselineStatus trueFp falseFp trueResp falseResp then
                  (r.1 + 2,
                   { truePayload := tp.payload
                     falsePayload := fp.payload
                     differenceScore := 1 - similarityScore trueFp falseFp
                     baselineMatch := similarityScore baselineFp trueFp } :: r.2)
                else (r.1 + 2, r.2)
      else booleanPairLoop fingerprint baselineFp baselineStatus oracle rest k
  | _, _ => (0, [])

/-- `max(boolean_results, key=lambda x: x["difference_score"])` (line 2226):
Python's `max` returns the first element attaining the maximum. -/
def maxByDifference : List BoolFlag → Option BoolFlag
  | [] => none
  | x :: xs =>
      some (xs.foldl (fun best y =>
        if y.differenceScore > best.differenceScore then y else best) x)

/-- The boolean-based branch of `_test_blind_sqli` (lines 2164–2242): run
the pairing loop against the baseline fingerprint, and if any pair was
flagged, immediately report a high-severity Finding built from the
best-scoring flagged pair.  Returns (requests issued, `boolean_results`,
the Finding or `None`). -/
def booleanBlindDetect (fingerprint : String → String) (url param : String)
    (baseline : RespB) (payloads : List BoolPayload)
    (oracle : ℕ → Option RespB) : ℕ × List BoolFlag × Option FindingN :=
  let baselineFp := fingerprint baseline.text
  let r := booleanPairLoop fingerprint baselineFp baseline.status oracle payloads 0
  match maxByDifference r.2 with
  | none => (r.1, r.2, none)
  | some best =>
      (r.1, r.2, some
        { name := "Blind Boolean-based SQL Injection"
          description := "A blind boolean-based SQL injection vulnerability was detected in parameter '" ++
            param ++ "'. The application responds differently to logically equivalent statements."
          severity := "high"
          url := url
          parameter := param
          evidence := "TRUE payload: " ++ best.truePayload ++ ", FALSE payload: " ++
            best.falsePayload
          remediation := "Parameterize queries, use prepared statements, or apply proper input validation and escaping." })

lemma maxByDifference_eq_none_iff (l : List BoolFlag) :
    maxByDifference l = none ↔ l = [] := by
  cases l <;> simp [maxByDifference]

lemma booleanBlindDetect_some_iff (fingerprint : String → String)
    (url param : String) (baseline : RespB) (payloads : List BoolPayload)
    (oracle : ℕ → Option RespB) :
    (booleanBlindDetect fingerprint url param baseline payloads oracle).2.2.isSome ↔
      (booleanBlindDetect fingerprint url param baseline payloads oracle).2.1 ≠ [] := by
  unfold booleanBlindDetect
  dsimp only
  rcases h : maxByDifference
      (booleanPairLoop fingerprint (fingerprint baseline.text) baseline.status
        oracle payloads 0).2 with _ | best
  · rw [maxByDifference_eq_none_iff] at h
    simp [h]
  · have : (booleanPairLoop fingerprint (fingerprint baseline.text) baseline.status
        oracle payloads 0).2 ≠ [] := by
      intro hnil
      rw [hnil] at h
      simp [maxByDifference] at h
    simp [h, this]

/-- A well-ordered TRUE/FALSE payload pair of the shape the pairing loop
requires (first element expects TRUE, second expects FALSE). -/
def c1PayloadPair : List BoolPayload :=
  [⟨"1' AND 81=81 AND '17'='17", true⟩, ⟨"1' AND 15=97 AND '42'='42", false⟩]

/-- The responses of the spec's boolean-blind example: the TRUE payload
returns the baseline body `"Welcome"`, the FALSE payload returns
`"Error: access denied"`. -/
def c1Oracle : ℕ → Option RespB :=
  fun k =>
    if k = 0 then some ⟨"Welcome", 200⟩
    else if k = 1 then some ⟨"Error: access denied", 200⟩
    else none

lemma fingerprintPlain_Welcome : fingerprintPlain "Welcome" = "Welcome" := by
  decide

lemma fingerprintPlain_ErrorDenied :
    fingerprintPlain "Error: access denied" = "Error: access denied" := by
  decide

lemma similarityScore_Welcome_ErrorDenied :
    similarityScore "Welcome" "Error: access denied" = 7/40 := by
  have h1 : "Welcome".length = 7 := by decide
  have h2 : "Error: access denied".length = 20 := by decide
  unfold similarityScore
  rw [h1, h2]
  norm_num [min_def, max_def]

lemma c1_boolHit :
    boolHit "Welcome" 200 "Welcome" "Error: access denied"
      ⟨"Welcome", 200⟩ ⟨"Error: access denied", 200⟩ := by
  refine Or.inl ⟨?_, ?_⟩
  · rw [similarityScore_self "Welcome" (by decide)]; norm_num
  · rw [similarityScore_Welcome_ErrorDenied]; norm_num

/-!
### Time-blind detection (`new_sql_scanner.py`, lines 2142–2162 and
2244–2346)
-/

/-- The response dictionary built by `_perform_request` (lines 3006–3012):
keys `status`, `text`, `url`, `headers`, `duration` (headers omitted
here). -/
structure PerformResp where
  status : ℕ
  text : String
  url : String
  duration : ℚ
  deriving Repr, DecidableEq

/-- `baseline_response.get("elapsed", 0.5)` (line 2158): the dictionary
returned by `_perform_request` has no `"elapsed"` key, so the lookup always
falls back to the default 0.5 seconds. -/
def baselineResponseTime (_r : PerformResp) : ℚ := 1/2

/-- `time_delay = 5` (line 2246). -/
def timeDelay : ℕ := 5

/-- Rounding half-to-even, as Python's string formatting applies to the
decimal expansion. -/
def roundHalfEven (q : ℚ) : ℤ :=
  let f := ⌊q⌋
  let r := q - f
  if r < 1/2 then f
  else if 1/2 < r then f + 1
  else if f % 2 = 0 then f else f + 1

/-- Render a count of hundredths as a two-decimal string. -/
def format2fInt (n : ℤ) : String :=
  let m := n.natAbs
  let ip := m / 100
  let fr := m % 100
  (if n < 0 then "-" else "") ++ toString ip ++ "." ++
    (if fr < 10 then "0" else "") ++ toString fr

/-- Python `f"{q:.2f}"`, for values exactly representable in binary floating
point (all values used in the concrete evaluations below are). -/
def format2f (q : ℚ) : String := format2fInt (roundHalfEven (q * 100))

/-- The evidence string of both time-based branches (lines 2309 and 2341):
`f"Payload: {payload}, Delay: {elapsed_time:.2f}s vs baseline:
{baseline_response_time:.2f}s"`. -/
def timeEvidence (payload : String) (elapsed b : ℚ) : String :=
  "Payload: " ++ payload ++ ", Delay: " ++ format2f elapsed ++
    "s vs baseline: " ++ format2f b ++ "s"

/-- Which branch of the time-based section a payload belongs to: a
DBMS-specific delay payload (lines 2287–2314) or a generic heavy query
(lines 2316–2346). -/
inductive ProbeKind where
  | timed (dbUpper : String)
  | heavy
  deriving Repr, DecidableEq

/-- The detection threshold of each branch: a delay payload fires when the
elapsed time exceeds `max(baseline_response_time * 2, time_delay * 0.8)`
(line 2299), a heavy query when it exceeds `baseline_response_time * 3`
(line 2331). -/
def probeThreshold (b : ℚ) : ProbeKind → ℚ
  | .timed _ => max (b * 2) ((timeDelay : ℚ) * (8/10))
  | .heavy => b * 3

/-- The Finding built on a threshold hit (lines 2301–2311 and
2333–2343). -/
def mkTimeFinding (url param payload : String) (kind : ProbeKind)
    (elapsed b : ℚ) : FindingN :=
  match kind with
  | .timed db =>
      { name := "Blind Time-based SQL Injection (" ++ db ++ ")"
        description := "A blind time-based SQL injection vulnerability was detected in parameter '" ++
          param ++ "'. The application response was delayed by approximately " ++
          format2f elapsed ++ " seconds."
        severity := "high"
        url := url
        parameter := param
        evidence := timeEvidence payload elapsed b
        remediation := "Parameterize queries, use prepared statements, or apply proper input validation and escaping." }
  | .heavy =>
      { name := "Blind SQL Injection (Heavy Query)"
        description := "A blind SQL injection vulnerability was detected in parameter '" ++
          param ++ "'. The application response was delayed significantly with a computationally expensive query."
        severity := "high"
        url := url
        parameter := param
        evidence := timeEvidence payload elapsed b
        remediation := "Parameterize queries, use prepared statements, or apply proper input validation and escaping." }

/-- The five separator variants of each DBMS's delay payloads
(lines 2250–2284): `'`, `"`, `')`, `")`, and none. -/
def timeSeps : List String := ["'", "\"", "')", "\")", ""]

/-- The `time_based_payloads` table (lines 2249–2285) flattened in its
Python dict insertion order (mysql, postgresql, mssql, oracle, sqlite),
followed by the `heavy_payloads` list (lines 2318–2322); each entry is
paired with its branch tag. -/
def timeProbeList (v : String) : List (String × ProbeKind) :=
  (timeSeps.map (fun sep =>
    (v ++ sep ++ " AND SLEEP(" ++ toString timeDelay ++ ") -- ",
      ProbeKind.timed "MYSQL"))) ++
  (timeSeps.map (fun sep =>
    (v ++ sep ++ " AND (SELECT pg_sleep(" ++ toString timeDelay ++ ")) -- ",
      ProbeKind.timed "POSTGRESQL"))) ++
  (timeSeps.map (fun sep =>
    (v ++ sep ++ " WAITFOR DELAY '0:0:" ++ toString timeDelay ++ "' -- ",
      ProbeKind.timed "MSSQL"))) ++
  (timeSeps.map (fun sep =>
    (v ++ sep ++ " AND DBMS_PIPE.RECEIVE_MESSAGE('XYZ'," ++ toString timeDelay ++ ") -- ",
      ProbeKind.timed "ORACLE"))) ++
  (timeSeps.map (fun sep =>
    (v ++ sep ++ " AND RANDOMBLOB(100000000) -- ",
      ProbeKind.timed "SQLITE"))) ++
  [(v ++ "' AND (SELECT count(*) FROM all_users t1, all_users t2, all_users t3) > 0 -- ",
      ProbeKind.heavy),
   (v ++ "' AND (WITH RECURSIVE t(n) AS (SELECT 1 UNION ALL SELECT n+1 FROM t WHERE n < 100) SELECT count(*) FROM t) > 0 -- ",
      ProbeKind.heavy),
   (v ++ "' AND (SELECT count(*) FROM generate_series(1,10000)) > 0 -- ",
      ProbeKind.heavy)]

/-- The probe loops of the time-based section (lines 2287–2346): each
payload costs one timed request (`oracle k` returns whether
`_send_payload_request` yielded a response, and the measured wall-clock
elapsed time); the first response exceeding its branch threshold
immediately returns a Finding.  Returns (requests issued, Finding). -/
def timeProbeRun (url param : String) (b : ℚ) (oracle : ℕ → Bool × ℚ) :
    List (String × ProbeKind) → ℕ → ℕ × Option FindingN
  | [], _ => (0, none)
  | (p, kind) :: rest, k =>
      let res := oracle k
      if res.1 = true ∧ res.2 > probeThreshold b kind then
        (1, some (mkTimeFinding url param p kind res.2 b))
      else
        let r := timeProbeRun url param b oracle rest (k+1)
        (r.1 + 1, r.2)

/-- The time-based section of `_test_blind_sqli` (lines 2244–2346), entered
after the boolean branch found nothing: the baseline latency is read from
the baseline response (`.get("elapsed", 0.5)`) and the probes run in table
order. -/
def timeBlindSection (url param : String) (baseline : PerformResp)
    (oracle : ℕ → Bool × ℚ) : ℕ × Option FindingN :=
  timeProbeRun url param (baselineResponseTime baseline) oracle
    (timeProbeList param) 0

lemma timeEvidence_contains_elapsed (p : String) (e b : ℚ) :
    strContains (timeEvidence p e b) (format2f e) = true := by
  have hd : ∀ x y : String, (x ++ y).data = x.data ++ y.data := fun _ _ => rfl
  apply strContains_of_parts _ _ (("Payload: " ++ p ++ ", Delay: ").data)
      (("s vs baseline: " ++ format2f b ++ "s").data)
  unfold timeEvidence
  simp [hd, List.append_assoc]

lemma timeEvidence_contains_baseline (p : String) (e b : ℚ) :
    strContains (timeEvidence p e b) (format2f b) = true := by
  have hd : ∀ x y : String, (x ++ y).data = x.data ++ y.data := fun _ _ => rfl
  apply strContains_of_parts _ _
      (("Payload: " ++ p ++ ", Delay: " ++ format2f e ++ "s vs baseline: ").data)
      ("s".data)
  unfold timeEvidence
  simp [hd, List.append_assoc]

lemma mkTimeFinding_severity (url param payload : String) (kind : ProbeKind)
    (elapsed b : ℚ) :
    (mkTimeFinding url param payload kind elapsed b).severity = "high" := by
  cases kind <;> rfl

lemma mkTimeFinding_evidence (url param payload : String) (kind : ProbeKind)
    (elapsed b : ℚ) :
    (mkTimeFinding url param payload kind elapsed b).evidence =
      timeEvidence payload elapsed b := by
  cases kind <;> rfl

lemma timeProbeRun_some (url param : String) (b : ℚ) (oracle : ℕ → Bool × ℚ)
    (l : List (String × ProbeKind)) :
    ∀ (k0 n : ℕ) (f : FindingN),
      timeProbeRun url param b oracle l k0 = (n, some f) →
      ∃ i p kind, l.get? i = some (p, kind) ∧ n = i + 1 ∧
        (oracle (k0 + i)).1 = true ∧
        (oracle (k0 + i)).2 > probeThreshold b kind ∧
        f = mkTimeFinding url param p kind ((oracle (k0 + i)).2) b := by
  induction l with
  | nil =>
      intro k0 n f h
      rw [timeProbeRun] at h
      simp at h
  | cons hd rest ih =>
      intro k0 n f h
      obtain ⟨p, kind⟩ := hd
      rw [timeProbeRun] at h
      dsimp only at h
      by_cases hcond : (oracle k0).1 = true ∧ (oracle k0).2 > probeThreshold b kind
      · rw [if_pos hcond] at h
        rw [Prod.mk.injEq] at h
        obtain ⟨hn, hf⟩ := h
        refine ⟨0, p, kind, rfl, hn.symm, ?_, ?_, ?_⟩
        · simpa using hcond.1
        · simpa using hcond.2
        · rw [Nat.add_zero]
          exact (Option.some.injEq _ _ ▸ hf).symm
      · rw [if_neg hcond] at h
        rw [Prod.mk.injEq] at h
        obtain ⟨hn, hf⟩ := h
        have hr : timeProbeRun url param b oracle rest (k0 + 1) =
            ((timeProbeRun url param b oracle rest (k0 + 1)).1, some f) := by
          rw [← hf]
        obtain ⟨i, p', kind', hget, hni, ho1, ho2, hfeq⟩ := ih (k0 + 1) _ f hr
        refine ⟨i + 1, p', kind', by simpa using hget, by omega, ?_, ?_, ?_⟩
        · have : k0 + (i + 1) = k0 + 1 + i := by omega
          rw [this]; exact ho1
        · have : k0 + (i + 1) = k0 + 1 + i := by omega
          rw [this]; exact ho2
        · have : k0 + (i + 1) = k0 + 1 + i := by omega
          rw [this]; exact hfeq

/-- The baseline response used in the concrete time-blind evaluation. -/
def c2Baseline : PerformResp := ⟨200, "Welcome", "http://target/item", 0⟩

/-- A response schedule whose first probe takes 5 s and every later probe
is fast (0.1 s): only one request ever exceeds a threshold. -/
def c2Oracle : ℕ → Bool × ℚ := fun k => if k = 0 then (true, 5) else (true, 1/10)

lemma c2_timeBlind_eval :
    timeBlindSection "http://target/item" "id" c2Baseline c2Oracle =
      (1, some (mkTimeFinding "http://target/item" "id"
        ("id" ++ "'" ++ " AND SLEEP(" ++ toString timeDelay ++ ") -- ")
        (.timed "MYSQL") 5 (1/2))) := by
  unfold timeBlindSection baselineResponseTime timeProbeList timeSeps
  simp only [List.map_cons, List.cons_append]
  rw [timeProbeRun]
  have hcond : (c2Oracle 0).1 = true ∧
      (c2Oracle 0).2 > probeThreshold (1/2) (ProbeKind.timed "MYSQL") := by
    refine ⟨rfl, ?_⟩
    show (5:ℚ) > probeThreshold (1/2) (ProbeKind.timed "MYSQL")
    unfold probeThreshold timeDelay
    norm_num [max_def]
  rw [if_pos hcond]
  rfl

lemma format2f_five : format2f 5 = "5.00" := by
  have h : roundHalfEven ((5:ℚ) * 100) = 500 := by
    unfold roundHalfEven
    norm_num
  rw [format2f, h]
  decide

lemma format2f_half : format2f (1/2) = "0.50" := by
  have h : roundHalfEven ((1/2:ℚ) * 100) = 50 := by
    unfold roundHalfEven
    norm_num
  rw [format2f, h]
  decide

lemma booleanPairLoop_nil (fingerprint : String → String) (baselineFp : String)
    (baselineStatus : ℕ) (oracle : ℕ → Option RespB) (k : ℕ) :
    booleanPairLoop fingerprint baselineFp baselineStatus oracle [] k = (0, []) :=
  rfl

lemma c1_pairLoop_eval :
    booleanPairLoop fingerprintPlain "Welcome" 200 c1Oracle c1PayloadPair 0 =
      (2, [{ truePayload := "1' AND 81=81 AND '17'='17"
             falsePayload := "1' AND 15=97 AND '42'='42"
             differenceScore := 1 - 7/40
             baselineMatch := 1 }]) := by
  rw [c1PayloadPair]
  rw [booleanPairLoop]
  rw [if_pos (by simp)]
  have h0 : c1Oracle 0 = some ⟨"Welcome", 200⟩ := rfl
  have h1 : c1Oracle 1 = some ⟨"Error: access denied", 200⟩ := rfl
  rw [h0, h1]
  simp only [fingerprintPlain_Welcome, fingerprintPlain_ErrorDenied]
  rw [if_pos c1_boolHit]
  rw [booleanPairLoop_nil]
  rw [similarityScore_Welcome_ErrorDenied,
    similarityScore_self "Welcome" (by decide)]

/-!
### Request engine (`new_sql_scanner.py`, lines 2843–2878 and 2912–2969)
-/

/-- What `_make_rate_limited_request` and `_classify_error` read from a
raised exception: whether it is one of the network/timeout exception
classes of line 2857 (`aiohttp.ClientConnectorError`,
`aiohttp.ServerTimeoutError`, `aiohttp.ClientOSError`,
`asyncio.TimeoutError`), its string form, and its `status` attribute when
present. -/
structure ErrInfo where
  isNetworkExc : Bool
  msg : String
  status : Option ℕ
  deriving Repr, DecidableEq

/-- `EnhancedSQLScanner._classify_error` (lines 2843–2878). -/
def classifyError (e : ErrInfo) : String :=
  let errorStr := strLower e.msg
  if e.isNetworkExc then "transient"
  else if strContains errorStr "connection reset" ||
      strContains errorStr "broken pipe" ||
      strContains errorStr "connection refused" then "transient"
  else if strContains errorStr "timeout" || strContains errorStr "timed out" then
    "transient"
  else if e.status = some 429 ∨ e.status = some 503 ∨ e.status = some 502 ∨
      e.status = some 504 then "transient"
  else if e.status = some 500 ∨ e.status = some 501 ∨ e.status = some 403 ∨
      e.status = some 401 then "critical"
  else "critical"

/-- The outcome of one attempt of the retry loop: either `_perform_request`
returned a response after the measured elapsed time, or it raised. -/
inductive Attempt where
  | ok (resp : PerformResp) (elapsed : ℚ)
  | err (e : ErrInfo)
  deriving Repr, DecidableEq

/-- A call into the rate limiter (`report_success` with the elapsed time on
line 2931, `report_error` with the classified kind on line 2946). -/
inductive RLReport where
  | success (elapsed : ℚ)
  | error (kind : String)
  deriving Repr, DecidableEq

/-- The observable behaviour of one `_make_rate_limited_request` call: the
rate-limiter reports in order, the backoff sleeps in order, the returned
value, and the number of attempts made. -/
structure EngineTrace where
  reports : List RLReport
  sleeps : List ℚ
  result : Option PerformResp
  attempts : ℕ
  deriving Repr, DecidableEq

/-- The report the `k`-th attempt generates. -/
def expectedReport (out : ℕ → Attempt) (k : ℕ) : RLReport :=
  match out k with
  | .ok _ e => .success e
  | .err i => .error (classifyError i)

/-- The retry loop of `_make_rate_limited_request` (lines 2912–2969).
`out rc` is the outcome of attempt number `rc` (starting at 0), `jitter k`
the draw of `random.uniform(0.75, 1.25)` used after the `k`-th failure,
`retries` the retry budget (default 3).  On success the elapsed time is
reported and the response returned; on failure the classified kind is
reported, and the loop retries — after sleeping
`min(60, 2 ** retry_count) * jitter` — only when retries remain and the
kind is transient, otherwise it breaks and returns `None`.  `fuel` bounds
the recursion; it is called with `retries + 1`, which the guard never
exhausts. -/
def engineGo (out : ℕ → Attempt) (jitter : ℕ → ℚ) (retries : ℕ) :
    ℕ → ℕ → EngineTrace
  | _, 0 => ⟨[], [], none, 0⟩
  | rc, fuel+1 =>
      match out rc with
      | .ok r elapsed => ⟨[.success elapsed], [], some r, 1⟩
      | .err e =>
          let kind := classifyError e
          if rc + 1 ≤ retries ∧ kind = "transient" then
            let sleep := ((min 60 (2 ^ (rc+1)) : ℕ) : ℚ) * jitter (rc+1)
            let rest := engineGo out jitter retries (rc+1) fuel
            ⟨.error kind :: rest.reports, sleep :: rest.sleeps,
              rest.result, rest.attempts + 1⟩
          else ⟨[.error kind], [], none, 1⟩

/-- `_make_rate_limited_request` with `retry_count` starting at 0. -/
def runEngine (out : ℕ → Attempt) (jitter : ℕ → ℚ) (retries : ℕ) : EngineTrace :=
  engineGo out jitter retries 0 (retries + 1)

lemma engineGo_ok (out : ℕ → Attempt) (jitter : ℕ → ℚ) (retries n rc : ℕ)
    (r : PerformResp) (e : ℚ) (h : out rc = .ok r e) :
    engineGo out jitter retries rc (n+1) = ⟨[.success e], [], some r, 1⟩ := by
  rw [engineGo, h]

lemma engineGo_err_retry (out : ℕ → Attempt) (jitter : ℕ → ℚ) (retries n rc : ℕ)
    (e : ErrInfo) (h : out rc = .err e)
    (hg : rc + 1 ≤ retries ∧ classifyError e = "transient") :
    engineGo out jitter retries rc (n+1) =
      ⟨.error (classifyError e) :: (engineGo out jitter retries (rc+1) n).reports,
       ((min 60 (2 ^ (rc+1)) : ℕ) : ℚ) * jitter (rc+1) ::
         (engineGo out jitter retries (rc+1) n).sleeps,
       (engineGo out jitter retries (rc+1) n).result,
       (engineGo out jitter retries (rc+1) n).attempts + 1⟩ := by
  rw [engineGo, h]
  dsimp only
  rw [if_pos hg]

lemma engineGo_err_stop (out : ℕ → Attempt) (jitter : ℕ → ℚ) (retries n rc : ℕ)
    (e : ErrInfo) (h : out rc = .err e)
    (hg : ¬(rc + 1 ≤ retries ∧ classifyError e = "transient")) :
    engineGo out jitter retries rc (n+1) =
      ⟨[.error (classifyError e)], [], none, 1⟩ := by
  rw [engineGo, h]
  dsimp only
  rw [if_neg hg]

lemma engineGo_attempts_le (out : ℕ → Attempt) (jitter : ℕ → ℚ) (retries : ℕ) :
    ∀ fuel rc, (engineGo out jitter retries rc fuel).attempts ≤ fuel := by
  intro fuel
  induction fuel with
  | zero => intro rc; simp [engineGo]
  | succ n ih =>
      intro rc
      rcases h : out rc with ⟨r, e⟩ | ⟨e⟩
      · rw [engineGo_ok out jitter retries n rc r e h]
        simp
      · by_cases hg : rc + 1 ≤ retries ∧ classifyError e = "transient"
        · rw [engineGo_err_retry out jitter retries n rc e h hg]
          simpa using Nat.succ_le_succ (ih (rc+1))
        · rw [engineGo_err_stop out jitter retries n rc e h hg]
          simp

lemma engineGo_attempts_pos (out : ℕ → Attempt) (jitter : ℕ → ℚ) (retries : ℕ) :
    ∀ fuel rc, 1 ≤ fuel → 1 ≤ (engineGo out jitter retries rc fuel).attempts := by
  intro fuel rc hfuel
  match fuel, hfuel with
  | n+1, _ =>
      rcases h : out rc with ⟨r, e⟩ | ⟨e⟩
      · rw [engineGo_ok out jitter retries n rc r e h]
      · by_cases hg : rc + 1 ≤ retries ∧ classifyError e = "transient"
        · rw [engineGo_err_retry out jitter retries n rc e h hg]
          simp
        · rw [engineGo_err_stop out jitter retries n rc e h hg]

lemma engineGo_reports (out : ℕ → Attempt) (jitter : ℕ → ℚ) (retries : ℕ) :
    ∀ fuel rc, (engineGo out jitter retries rc fuel).reports =
      (List.range' rc (engineGo out jitter retries rc fuel).attempts).map
        (expectedReport out) := by
  intro fuel
  induction fuel with
  | zero => intro rc; simp [engineGo]
  | succ n ih =>
      intro rc
      rcases h : out rc with ⟨r, e⟩ | ⟨e⟩
      · rw [engineGo_ok out jitter retries n rc r e h]
        simp [List.range', expectedReport, h]
      · by_cases hg : rc + 1 ≤ retries ∧ classifyError e = "transient"
        · rw [engineGo_err_retry out jitter retries n rc e h hg]
          dsimp only
          rw [ih (rc+1)]
          have hr : List.range' rc ((engineGo out jitter retries (rc+1) n).attempts + 1) =
              rc :: List.range' (rc+1) (engineGo out jitter retries (rc+1) n).attempts := rfl
          rw [hr]
          simp [expectedReport, h]
        · rw [engineGo_err_stop out jitter retries n rc e h hg]
          simp [List.range', expectedReport, h]

lemma engineGo_sleeps (out : ℕ → Attempt) (jitter : ℕ → ℚ) (retries : ℕ) :
    ∀ fuel rc, retries + 1 ≤ fuel + rc →
      (engineGo out jitter retries rc fuel).sleeps =
        (List.range' (rc+1) ((engineGo out jitter retries rc fuel).attempts - 1)).map
          (fun k => ((min 60 (2 ^ k) : ℕ) : ℚ) * jitter k) := by
  intro fuel
  induction fuel with
  | zero =>
      intro rc _
      simp [engineGo]
  | succ n ih =>
      intro rc hle
      rcases h : out rc with ⟨r, e⟩ | ⟨e⟩
      · rw [engineGo_ok out jitter retries n rc r e h]
        simp [List.range']
      · by_cases hg : rc + 1 ≤ retries ∧ classifyError e = "transient"
        · rw [engineGo_err_retry out jitter retries n rc e h hg]
          dsimp only
          rw [ih (rc+1) (by omega)]
          have hpos : 1 ≤ (engineGo out jitter retries (rc+1) n).attempts :=
            engineGo_attempts_pos out jitter retries n (rc+1) (by omega)
          have hr : (engineGo out jitter retries (rc+1) n).attempts + 1 - 1 =
              ((engineGo out jitter retries (rc+1) n).attempts - 1) + 1 := by omega
          rw [hr]
          have hr2 : List.range' (rc+1)
              (((engineGo out jitter retries (rc+1) n).attempts - 1) + 1) =
              (rc+1) :: List.range' (rc+2)
                ((engineGo out jitter retries (rc+1) n).attempts - 1) := rfl
          rw [hr2]
          simp
        · rw [engineGo_err_stop out jitter retries n rc e h hg]
          simp [List.range']

lemma engineGo_middle_transient (out : ℕ → Attempt) (jitter : ℕ → ℚ)
    (retries : ℕ) :
    ∀ fuel rc k, k + 1 < (engineGo out jitter retries rc fuel).attempts →
      ∃ e, out (rc + k) = .err e ∧ classifyError e = "transient" := by
  intro fuel
  induction fuel with
  | zero => intro rc k hk; simp [engineGo] at hk
  | succ n ih =>
      intro rc k hk
      rcases h : out rc with ⟨r, e⟩ | ⟨e⟩
      · rw [engineGo_ok out jitter retries n rc r e h] at hk
        simp at hk
      · by_cases hg : rc + 1 ≤ retries ∧ classifyError e = "transient"
        · rw [engineGo_err_retry out jitter retries n rc e h hg] at hk
          dsimp only at hk
          match k, hk with
          | 0, _ => exact ⟨e, by simpa using h, hg.2⟩
          | k'+1, hk =>
              obtain ⟨e', he', hc⟩ := ih (rc+1) k' (by omega)
              exact ⟨e', by rw [show rc + (k'+1) = rc + 1 + k' by omega]; exact he', hc⟩
        · rw [engineGo_err_stop out jitter retries n rc e h hg] at hk
          simp at hk

lemma engineGo_critical_stops (out : ℕ → Attempt) (jitter : ℕ → ℚ)
    (retries : ℕ) :
    ∀ fuel rc k e, k < (engineGo out jitter retries rc fuel).attempts →
      out (rc + k) = .err e → classifyError e = "critical" →
      (engineGo out jitter retries rc fuel).attempts = k + 1 ∧
        (engineGo out jitter retries rc fuel).result = none := by
  intro fuel
  induction fuel with
  | zero => intro rc k e hk; simp [engineGo] at hk
  | succ n ih =>
      intro rc k e hk hout hcrit
      rcases h : out rc with ⟨r, e'⟩ | ⟨e'⟩
      · rw [engineGo_ok out jitter retries n rc r e' h] at hk ⊢
        simp only [EngineTrace.attempts] at hk
        have hk0 : k = 0 := by omega
        subst hk0
        rw [Nat.add_zero, h] at hout
        simp at hout
      · by_cases hg : rc + 1 ≤ retries ∧ classifyError e' = "transient"
        · rw [engineGo_err_retry out jitter retries n rc e' h hg] at hk ⊢
          dsimp only at hk ⊢
          match k with
          | 0 =>
              rw [Nat.add_zero, h] at hout
              have he : e' = e := by injection hout
              rw [he, hcrit] at hg
              simp at hg
          | k'+1 =>
              have hrec := ih (rc+1) k' e (by omega)
                (by rw [show rc + 1 + k' = rc + (k'+1) by omega]; exact hout) hcrit
              exact ⟨by omega, hrec.2⟩
        · rw [engineGo_err_stop out jitter retries n rc e' h hg] at hk ⊢
          exact ⟨by simpa using hk, rfl⟩

lemma engineGo_some_ok (out : ℕ → Attempt) (jitter : ℕ → ℚ) (retries : ℕ) :
    ∀ fuel rc r, (engineGo out jitter retries rc fuel).result = some r →
      ∃ k e, k < (engineGo out jitter retries rc fuel).attempts ∧
        out (rc + k) = .ok r e := by
  intro fuel
  induction fuel with
  | zero => intro rc r hr; simp [engineGo] at hr
  | succ n ih =>
      intro rc r hr
      rcases h : out rc with ⟨r', e'⟩ | ⟨e'⟩
      · rw [engineGo_ok out jitter retries n rc r' e' h] at hr ⊢
        simp only [EngineTrace.result, Option.some.injEq] at hr
        exact ⟨0, e', by simp, by rw [Nat.add_zero, h, hr]⟩
      · by_cases hg : rc + 1 ≤ retries ∧ classifyError e' = "transient"
        · rw [engineGo_err_retry out jitter retries n rc e' h hg] at hr ⊢
          dsimp only at hr ⊢
          obtain ⟨k, e2, hk, hok⟩ := ih (rc+1) r hr
          refine ⟨k+1, e2, by omega, ?_⟩
          rw [show rc + (k+1) = rc + 1 + k by omega]
          exact hok
        · rw [engineGo_err_stop out jitter retries n rc e' h hg] at hr
          simp at hr
end NewScanner

namespace EnhScanner

/-!
### UNION-based detection and consolidation
(`enhanced_sql_scanner.py`, lines 1347–1430 and 444–532)

This file's second scanner, `enhanced_sql_scanner.py`, also names its class
`EnhancedSQLScanner`; its findings use a `location` key instead of `url`.
-/

/-- A vulnerability dictionary of `enhanced_sql_scanner.py` (keys `id`,
`name`, `description`, `severity`, `location`, `evidence`,
`remediation`). -/
structure FindingE where
  id : String
  name : String
  description : String
  severity : String
  location : String
  evidence : String
  remediation : String
  deriving Repr, DecidableEq

/-- The marker table of `_test_union_sqli` (line 1373). -/
def unionMarkers : List String :=
  ["SQLi1337M1", "SQLi1337M2", "SQLi1337M3", "SQLi1337M4", "SQLi1337M5",
   "SQLi1337M6", "SQLi1337M7"]

/-- `f"SQLiVerify{random.randint(1000, 9999)}"` (line 1406): the `n`-th
draw of the pseudo-random stream mapped into 1000–9999. -/
def verifyMarker (n : ℕ) : String :=
  "SQLiVerify" ++ toString (1000 + n % 9000)

/-- The confirmation column list of lines 1407–1412: the fresh marker at
column `i`, `NULL` elsewhere (the `i == 0` and `i ≠ 0` branches of the
source build the same string). -/
def verifyPayload (i cols : ℕ) (vm : String) : String :=
  "' UNION SELECT " ++
    String.intercalate ","
      ((List.range cols).map (fun j => if j = i then "'" ++ vm ++ "'" else "NULL")) ++
    " --"

/-- The Finding returned on a confirmed UNION injection (lines
1416–1424). -/
def mkUnionFinding (newId url param locationType payload marker : String)
    (cols : ℕ) : FindingE :=
  { id := newId
    name := "UNION-based SQL Injection"
    description := "UNION-based SQL injection vulnerability detected in " ++
      locationType ++ " parameter: " ++ param
    severity := "high"
    location := url
    evidence := "Parameter '" ++ param ++ "' with payload '" ++ payload ++
      "' reflected marker '" ++ marker ++ "' in the response. Column count: " ++
      toString cols
    remediation := "Use parameterized queries or prepared statements. Validate and sanitize all user inputs." }

/-- One confirmation round (lines 1405–1415): the column that matched, the
fresh marker injected there, and whether the follow-up response contained
it. -/
structure UnionConfirm where
  col : ℕ
  cols : ℕ
  marker : String
  ok : Bool
  deriving Repr, DecidableEq

/-- The request/random-draw counters and the confirmation log of one
`_test_union_sqli` run. -/
structure UnionState where
  req : ℕ
  ver : ℕ
  confirms : List UnionConfirm
  deriving Repr, DecidableEq

/-- The marker scan of lines 1401–1424 for one payload response: for each
column index `i < min(cols, 7)`, if the `i`-th marker appears in the
response but not in the baseline, inject a fresh `SQLiVerify…` marker at
the same column and accept — returning the Finding — only when the
follow-up response contains the fresh marker; otherwise keep scanning. -/
def unionInnerLoop (baseline response : String) (cols : ℕ)
    (oracle : ℕ → Option String) (rng : ℕ → ℕ)
    (newId url param locationType payload : String) :
    List ℕ → UnionState → UnionState × Option FindingE
  | [], st => (st, none)
  | i :: rest, st =>
      let marker := (unionMarkers.get? i).getD ""
      if strContains response marker && !strContains baseline marker then
        let vm := verifyMarker (rng st.ver)
        let verifyResp := oracle st.req
        let ok := match verifyResp with
          | some t => strContains t vm
          | none => false
        let st' : UnionState :=
          ⟨st.req + 1, st.ver + 1, st.confirms ++ [⟨i, cols, vm, ok⟩]⟩
        if ok then
          (st', some (mkUnionFinding newId url param locationType payload marker cols))
        else
          unionInnerLoop baseline response cols oracle rng newId url param
            locationType payload rest st'
      else
        unionInnerLoop baseline response cols oracle rng newId url param
          locationType payload rest st

/-- The payload loop of lines 1395–1426: each payload costs one request;
a missing response skips the payload; otherwise the marker scan runs. -/
def unionPayloadLoop (baseline : String) (oracle : ℕ → Option String)
    (rng : ℕ → ℕ) (newId url param locationType : String) :
    List (String × ℕ) → UnionState → UnionState × Option FindingE
  | [], st => (st, none)
  | (payload, cols) :: rest, st =>
      match oracle st.req with
      | none =>
          unionPayloadLoop baseline oracle rng newId url param locationType rest
            ⟨st.req + 1, st.ver, st.confirms⟩
      | some response =>
          let r := unionInnerLoop baseline response cols oracle rng newId url
            param locationType payload (List.range (min cols 7))
            ⟨st.req + 1, st.ver, st.confirms⟩
          match r.2 with
          | some v => (r.1, some v)
          | none =>
              unionPayloadLoop baseline oracle rng newId url param locationType
                rest r.1

/-- `EnhancedSQLScanner._test_union_sqli` (lines 1347–1430) from the point
where the baseline response has been captured, parameterised by the sampled
payload list (`random.sample` + sort of lines 1387–1392). -/
def testUnionSqli (baseline : String) (payloads : List (String × ℕ))
    (oracle : ℕ → Option String) (rng : ℕ → ℕ)
    (newId url param locationType : String) : UnionState × Option FindingE :=
  unionPayloadLoop baseline oracle rng newId url param locationType payloads
    ⟨0, 0, []⟩

lemma verifyMarker_ne_base (n : ℕ) (m : String) (hm : m ∈ unionMarkers) :
    verifyMarker n ≠ m := by
  intro h
  have h4 : (verifyMarker n).data.get? 4 = m.data.get? 4 := by rw [h]
  have hL : (verifyMarker n).data.get? 4 = some 'V' := by
    show ("SQLiVerify".data ++ (toString (1000 + n % 9000)).data).get? 4 = some 'V'
    rw [List.get?_append (by decide)]
    decide
  rw [hL] at h4
  fin_cases hm <;> exact absurd h4 (by decide)

lemma unionInnerLoop_some_confirm (baseline response : String) (cols : ℕ)
    (oracle : ℕ → Option String) (rng : ℕ → ℕ)
    (newId url param locationType payload : String) :
    ∀ (l : List ℕ) (st : UnionState) (f : FindingE),
      (unionInnerLoop baseline response cols oracle rng newId url param
        locationType payload l st).2 = some f →
      ∃ c ∈ (unionInnerLoop baseline response cols oracle rng newId url param
        locationType payload l st).1.confirms,
        c.ok = true ∧ (∃ n, c.marker = verifyMarker n) := by
  intro l
  induction l with
  | nil => intro st f hf; simp [unionInnerLoop] at hf
  | cons i rest ih =>
      intro st f hf
      rw [unionInnerLoop] at hf ⊢
      dsimp only at hf ⊢
      by_cases hcond : (strContains response ((unionMarkers.get? i).getD "") &&
          !strContains baseline ((unionMarkers.get? i).getD "")) = true
      · rw [if_pos hcond] at hf ⊢
        by_cases hok : (match oracle st.req with
            | some t => strContains t (verifyMarker (rng st.ver))
            | none => false) = true
        · rw [if_pos hok] at hf ⊢
          refine ⟨⟨i, cols, verifyMarker (rng st.ver),
            match oracle st.req with
            | some t => strContains t (verifyMarker (rng st.ver))
            | none => false⟩, ?_, hok, ⟨rng st.ver, rfl⟩⟩
          simp
        · rw [if_neg hok] at hf ⊢
          exact ih _ f hf
      · rw [if_neg hcond] at hf ⊢
        exact ih _ f hf

lemma unionPayloadLoop_some_confirm (baseline : String)
    (oracle : ℕ → Option String) (rng : ℕ → ℕ)
    (newId url param locationType : String) :
    ∀ (payloads : List (String × ℕ)) (st : UnionState) (f : FindingE),
      (unionPayloadLoop baseline oracle rng newId url param locationType
        payloads st).2 = some f →
      ∃ c ∈ (unionPayloadLoop baseline oracle rng newId url param locationType
        payloads st).1.confirms,
        c.ok = true ∧ (∃ n, c.marker = verifyMarker n) := by
  intro payloads
  induction payloads with
  | nil => intro st f hf; simp [unionPayloadLoop] at hf
  | cons hd rest ih =>
      intro st f hf
      obtain ⟨payload, cols⟩ := hd
      rw [unionPayloadLoop] at hf ⊢
      rcases hresp : oracle st.req with _ | response
      · rw [hresp] at hf
        dsimp only at hf ⊢
        exact ih _ f hf
      · rw [hresp] at hf
        dsimp only at hf ⊢
        rcases hinner : (unionInnerLoop baseline response cols oracle rng newId
            url param locationType payload (List.range (min cols 7))
            ⟨st.req + 1, st.ver, st.confirms⟩).2 with _ | v
        · try rw [hinner] at hf
          try rw [hinner]
          dsimp only at hf ⊢
          exact ih _ f hf
        · try rw [hinner] at hf
          try rw [hinner]
          dsimp only at hf ⊢
          obtain ⟨c, hc, hok, hn⟩ := unionInnerLoop_some_confirm baseline
            response cols oracle rng newId url param locationType payload
            (List.range (min cols 7)) ⟨st.req + 1, st.ver, st.confirms⟩ v hinner
          exact ⟨c, hc, hok, hn⟩

/-!
### Consolidation (`enhanced_sql_scanner.py`, lines 444–532)

The grouping key is the Python dict key `f"{location}:{param_name}"`, with
the parameter name re-extracted from each finding's evidence
(`Parameter '([^']+)'`) or description (`parameter: ([^\s,]+)`) text.
`uuid.uuid4()` (line 497) is modelled by a supply `fresh : ℕ → String`
indexed by the number of groups created so far; two calls of the
consolidator draw distinct identifiers.
-/

/-- `severity_levels` (line 509), applied with `.get(·, 0)`. -/
def severityLevels (s : String) : ℕ :=
  if s = "critical" then 4
  else if s = "high" then 3
  else if s = "medium" then 2
  else if s = "low" then 1
  else if s = "info" then 0
  else 0

/-- `re.search`, for patterns of the shape `pre([^c]+)c`: the leftmost
occurrence of `pre` followed by one or more non-`close` characters and the
closing character; returns group 1. -/
def extractBetween (pre : List Char) (close : Char) : List Char → Option String
  | [] => none
  | c :: t =>
      if pre.isPrefixOf (c :: t) then
        let after := (c :: t).drop pre.length
        let grabbed := after.takeWhile (fun d => d ≠ close)
        if grabbed.length ≠ 0 ∧ (after.drop grabbed.length).head? = some close then
          some ⟨grabbed⟩
        else extractBetween pre close t
      else extractBetween pre close t

/-- `re.search`, for patterns of the shape `pre([^S]+)` with `S` a stop
class: the leftmost occurrence of `pre` followed by one or more non-stop
characters; returns group 1. -/
def extractRun (pre : List Char) (stop : Char → Bool) : List Char → Option String
  | [] => none
  | c :: t =>
      if pre.isPrefixOf (c :: t) then
        let after := (c :: t).drop pre.length
        let grabbed := after.takeWhile (fun d => !stop d)
        if grabbed.length ≠ 0 then some ⟨grabbed⟩
        else extractRun pre stop t
      else extractRun pre stop t

/-- The parameter-name extraction of lines 467–481: first
`Parameter '([^']+)'` against the evidence, else `parameter: ([^\s,]+)`
against the description, else the empty string. -/
def extractParamName (evidence description : String) : String :=
  match extractBetween "Parameter '".data '\'' evidence.data with
  | some p => p
  | none =>
      match extractRun "parameter: ".data
          (fun c => NewScanner.pyIsSpace c || c = ',') description.data with
      | some p => p
      | none => ""

/-- `payload '([^']+)'` against the evidence (lines 487–490), defaulting to
the empty string. -/
def extractPayload (evidence : String) : String :=
  (extractBetween "payload '".data '\'' evidence.data).getD ""

/-- The dict key `f"{location}:{param_name}"` (line 484). -/
def keyOf (f : FindingE) : String :=
  f.location ++ ":" ++ extractParamName f.evidence f.description

/-- A value of the `consolidated` dict: the finding under construction and
its temporary `payloads` list. -/
abbrev Entry := FindingE × List String

/-- Lookup in the insertion-ordered dict. -/
def lookupEntry (key : String) : List (String × Entry) → Option Entry
  | [] => none
  | (k, e) :: rest => if k = key then some e else lookupEntry key rest

/-- In-place update of the entry stored under `key`. -/
def updateAssoc (key : String) (g : Entry → Entry) :
    List (String × Entry) → List (String × Entry)
  | [] => []
  | (k, e) :: rest =>
      if k = key then (k, g e) :: rest else (k, e) :: updateAssoc key g rest

/-- The `payloads` list created for a fresh dict entry
(`[payload] if payload else []`, line 495). -/
def initPayloads (f : FindingE) : List String :=
  if extractPayload f.evidence = "" then [] else [extractPayload f.evidence]

/-- The merge of lines 498–514: extend the payload list with an unseen
nonempty payload, prefix the evidence once with `Multiple payloads were
successful. Examples: `, and keep the higher severity level. -/
def mergeEntry (v : FindingE) (payload : String) (e : Entry) : Entry :=
  let payloads := if payload ≠ "" ∧ payload ∉ e.2 then e.2 ++ [payload] else e.2
  let evidence :=
    if "Multiple payloads".data.isPrefixOf e.1.evidence.data then e.1.evidence
    else "Multiple payloads were successful. Examples: " ++ e.1.evidence
  let severity :=
    if severityLevels v.severity > severityLevels e.1.severity then v.severity
    else e.1.severity
  ({ e.1 with evidence := evidence, severity := severity }, payloads)

/-- One iteration of the grouping loop (lines 464–514): an unseen key
appends a copy of the finding with a fresh id; a seen key merges. -/
def consStep (fresh : ℕ → String) (acc : List (String × Entry)) (v : FindingE) :
    List (String × Entry) :=
  let key := keyOf v
  let payload := extractPayload v.evidence
  match lookupEntry key acc with
  | none =>
      acc ++ [(key, ({ v with id := fresh acc.length },
        if payload = "" then [] else [payload]))]
  | some _ => updateAssoc key (mergeEntry v payload) acc

/-- The grouping loop over all findings. -/
def consolidateCore (fresh : ℕ → String) (vulns : List FindingE) :
    List (String × Entry) :=
  vulns.foldl (consStep fresh) []

/-- The final pass of lines 517–529: entries holding more than one payload
get a `Multiple successful payloads: …` evidence string (first 5 examples
plus a count of the rest); the temporary `payloads` field is dropped. -/
def finalFun (e : Entry) : FindingE :=
  if e.2.length > 1 then
    { e.1 with evidence := "Multiple successful payloads: " ++
        String.intercalate ", " ((e.2.take 5).map (fun p => "'" ++ p ++ "'")) ++
        (if e.2.length > 5 then " (" ++ toString (e.2.length - 5) ++ " more)"
         else "") }
  else e.1

/-- `EnhancedSQLScanner._consolidate_vulnerabilities` (lines 444–532). -/
def consolidateVulnerabilities (fresh : ℕ → String) (vulns : List FindingE) :
    List FindingE :=
  if vulns.isEmpty then []
  else (consolidateCore fresh vulns).map (fun p => finalFun p.2)

/-- The severities of the findings grouped under key `k`. -/
def groupSevs (k : String) (l : List FindingE) : List String :=
  (l.filter (fun f => keyOf f = k)).map (fun f => f.severity)

/-- A finding with only its fresh identity erased. -/
def eraseId (f : FindingE) : FindingE := { f with id := "" }

/-- Reassign identities from the supply, starting at index `k`. -/
def reassignIds (s : ℕ → String) : ℕ → List FindingE → List FindingE
  | _, [] => []
  | k, f :: rest => { f with id := s k } :: reassignIds s (k+1) rest

/-- The dict rows a run over pairwise-distinct keys appends, fresh ids
starting at index `k`. -/
def newEntriesFrom (s : ℕ → String) : ℕ → List FindingE → List (String × Entry)
  | _, [] => []
  | k, f :: rest =>
      (keyOf f, ({ f with id := s k }, initPayloads f)) :: newEntriesFrom s (k+1) rest

lemma consStep_new (fresh : ℕ → String) (acc : List (String × Entry))
    (v : FindingE) (hl : lookupEntry (keyOf v) acc = none) :
    consStep fresh acc v =
      acc ++ [(keyOf v, ({ v with id := fresh acc.length }, initPayloads v))] := by
  unfold consStep initPayloads
  dsimp only
  rw [hl]

lemma consStep_merge (fresh : ℕ → String) (acc : List (String × Entry))
    (v : FindingE) (e0 : Entry) (hl : lookupEntry (keyOf v) acc = some e0) :
    consStep fresh acc v =
      updateAssoc (keyOf v) (mergeEntry v (extractPayload v.evidence)) acc := by
  unfold consStep
  dsimp only
  rw [hl]

lemma lookupEntry_append (k : String) (acc : List (String × Entry))
    (key : String) (e' : Entry) :
    lookupEntry k (acc ++ [(key, e')]) =
      match lookupEntry k acc with
      | some e => some e
      | none => if key = k then some e' else none := by
  induction acc with
  | nil => simp [lookupEntry]
  | cons hd rest ih =>
      obtain ⟨k0, e0⟩ := hd
      by_cases h : k0 = k
      · simp [lookupEntry, h]
      · simpa [lookupEntry, h] using ih

lemma lookupEntry_update_self (key : String) (g : Entry → Entry)
    (acc : List (String × Entry)) :
    lookupEntry key (updateAssoc key g acc) = (lookupEntry key acc).map g := by
  induction acc with
  | nil => simp [lookupEntry, updateAssoc]
  | cons hd rest ih =>
      obtain ⟨k0, e0⟩ := hd
      by_cases h : k0 = key
      · simp [lookupEntry, updateAssoc, h]
      · simp [lookupEntry, updateAssoc, h, ih]

lemma lookupEntry_update_ne (key k : String) (hk : k ≠ key) (g : Entry → Entry)
    (acc : List (String × Entry)) :
    lookupEntry k (updateAssoc key g acc) = lookupEntry k acc := by
  induction acc with
  | nil => simp [updateAssoc]
  | cons hd rest ih =>
      obtain ⟨k0, e0⟩ := hd
      by_cases h : k0 = key
      · have hne : k0 ≠ k := by
          rw [h]
          exact fun hh => hk hh.symm
        have hkne : key ≠ k := fun hh => hk hh.symm
        simp [updateAssoc, lookupEntry, h, hne, hkne]
      · by_cases h2 : k0 = k
        · simp [updateAssoc, lookupEntry, h, h2, hk]
        · simp [updateAssoc, lookupEntry, h, h2, ih]

lemma updateAssoc_keys (key : String) (g : Entry → Entry)
    (acc : List (String × Entry)) :
    (updateAssoc key g acc).map Prod.fst = acc.map Prod.fst := by
  induction acc with
  | nil => rfl
  | cons hd rest ih =>
      obtain ⟨k0, e0⟩ := hd
      by_cases h : k0 = key <;> simp [updateAssoc, h, ih]

lemma lookupEntry_eq_none_iff (k : String) (acc : List (String × Entry)) :
    lookupEntry k acc = none ↔ k ∉ acc.map Prod.fst := by
  induction acc with
  | nil => simp [lookupEntry]
  | cons hd rest ih =>
      obtain ⟨k0, e0⟩ := hd
      by_cases h : k0 = k
      · simp [lookupEntry, h]
      · simp only [lookupEntry, if_neg h, List.map_cons, List.mem_cons, ih]
        constructor
        · intro hn hmem
          rcases hmem with h1 | h2
          · exact h h1.symm
          · exact hn h2
        · intro hn hm
          exact hn (Or.inr hm)

/-- The invariant of the grouping fold: for every key present in the dict,
the stored severity is one of the group's severities and dominates all of
them in `severity_levels`; absent keys have an empty group so far. -/
def SevInv (acc : List (String × Entry)) (seen : List FindingE) : Prop :=
  (∀ k e, lookupEntry k acc = some e →
     e.1.severity ∈ groupSevs k seen ∧
     ∀ sv ∈ groupSevs k seen, severityLevels sv ≤ severityLevels e.1.severity) ∧
  (∀ k, lookupEntry k acc = none → groupSevs k seen = [])

lemma sevInv_init : SevInv [] [] := by
  constructor
  · intro k e he
    simp [lookupEntry] at he
  · intro k _
    simp [groupSevs]

lemma groupSevs_append_single (k : String) (seen : List FindingE) (v : FindingE) :
    groupSevs k (seen ++ [v]) =
      groupSevs k seen ++ (if keyOf v = k then [v.severity] else []) := by
  unfold groupSevs
  rw [List.filter_append, List.map_append]
  congr 1
  by_cases h : keyOf v = k <;> simp [h]

lemma sevInv_step (fresh : ℕ → String) (acc : List (String × Entry))
    (seen : List FindingE) (v : FindingE) (h : SevInv acc seen) :
    SevInv (consStep fresh acc v) (seen ++ [v]) := by
  obtain ⟨hsome, hnone⟩ := h
  rcases hl : lookupEntry (keyOf v) acc with _ | e0
  · rw [consStep_new fresh acc v hl]
    constructor
    · intro k e he
      rw [lookupEntry_append] at he
      rcases hk : lookupEntry k acc with _ | e1
      · rw [hk] at he
        try dsimp only at he
        by_cases hkey : keyOf v = k
        · rw [if_pos hkey] at he
          injection he with he'
          subst he'
          rw [groupSevs_append_single, hnone k hk, if_pos hkey]
          constructor
          · simp
          · intro sv hsv
            simp at hsv
            subst hsv
            exact le_refl _
        · rw [if_neg hkey] at he
          cases he
      · rw [hk] at he
        try dsimp only at he
        injection he with he'
        subst he'
        have hkey : keyOf v ≠ k := by
          intro hh
          rw [hh] at hl
          rw [hl] at hk
          cases hk
        rw [groupSevs_append_single, if_neg hkey]
        simpa using hsome k e1 hk
    · intro k hno
      rw [lookupEntry_append] at hno
      rcases hk : lookupEntry k acc with _ | e1
      · rw [hk] at hno
        try dsimp only at hno
        by_cases hkey : keyOf v = k
        · rw [if_pos hkey] at hno
          cases hno
        · rw [groupSevs_append_single, hnone k hk, if_neg hkey]
          rfl
      · rw [hk] at hno
        try dsimp only at hno
        cases hno
  · rw [consStep_merge fresh acc v e0 hl]
    constructor
    · intro k e he
      by_cases hkey : k = keyOf v
      · subst hkey
        rw [lookupEntry_update_self, hl] at he
        try dsimp only at he
        injection he with he'
        subst he'
        obtain ⟨hmem, hmax⟩ := hsome _ e0 hl
        rw [groupSevs_append_single, if_pos rfl]
        unfold mergeEntry
        dsimp only
        by_cases hgt : severityLevels v.severity > severityLevels e0.1.severity
        · rw [if_pos hgt]
          constructor
          · simp
          · intro sv hsv
            rcases List.mem_append.mp hsv with hsv | hsv
            · exact le_trans (hmax sv hsv) (le_of_lt hgt)
            · simp at hsv
              subst hsv
              exact le_refl _
        · rw [if_neg hgt]
          constructor
          · exact List.mem_append.mpr (Or.inl hmem)
          · intro sv hsv
            rcases List.mem_append.mp hsv with hsv | hsv
            · exact hmax sv hsv
            · simp at hsv
              subst hsv
              exact Nat.le_of_not_lt hgt
      · rw [lookupEntry_update_ne _ _ hkey] at he
        rw [groupSevs_append_single, if_neg (fun hh => hkey hh.symm)]
        simpa using hsome k e he
    · intro k hno
      by_cases hkey : k = keyOf v
      · subst hkey
        rw [lookupEntry_update_self, hl] at hno
        try dsimp only at hno
        cases hno
      · rw [lookupEntry_update_ne _ _ hkey] at hno
        rw [groupSevs_append_single, if_neg (fun hh => hkey hh.symm),
          hnone k hno]
        rfl

lemma sevInv_fold (fresh : ℕ → String) :
    ∀ (l : List FindingE) (acc : List (String × Entry)) (seen : List FindingE),
      SevInv acc seen → SevInv (l.foldl (consStep fresh) acc) (seen ++ l) := by
  intro l
  induction l with
  | nil =>
      intro acc seen h
      simpa using h
  | cons v rest ih =>
      intro acc seen h
      have h1 := sevInv_step fresh acc seen v h
      have h2 := ih (consStep fresh acc v) (seen ++ [v]) h1
      simpa [List.append_assoc] using h2

lemma core_sevInv (fresh : ℕ → String) (l : List FindingE) :
    SevInv (consolidateCore fresh l) l := by
  have := sevInv_fold fresh l [] [] sevInv_init
  simpa [consolidateCore] using this

lemma consStep_keys_nodup (fresh : ℕ → String) (acc : List (String × Entry))
    (v : FindingE) (h : (acc.map Prod.fst).Nodup) :
    ((consStep fresh acc v).map Prod.fst).Nodup := by
  rcases hl : lookupEntry (keyOf v) acc with _ | e0
  · rw [consStep_new fresh acc v hl]
    have hne : keyOf v ∉ acc.map Prod.fst := (lookupEntry_eq_none_iff _ _).mp hl
    simp [List.nodup_append, h, hne]
  · rw [consStep_merge fresh acc v e0 hl, updateAssoc_keys]
    exact h

lemma core_keys_nodup (fresh : ℕ → String) :
    ∀ (l : List FindingE) (acc : List (String × Entry)),
      (acc.map Prod.fst).Nodup →
      ((l.foldl (consStep fresh) acc).map Prod.fst).Nodup := by
  intro l
  induction l with
  | nil => intro acc h; exact h
  | cons v rest ih =>
      intro acc h
      exact ih (consStep fresh acc v) (consStep_keys_nodup fresh acc v h)

lemma foldl_all_new (s : ℕ → String) :
    ∀ (l : List FindingE) (acc : List (String × Entry)),
      (l.map keyOf).Nodup →
      (∀ f ∈ l, lookupEntry (keyOf f) acc = none) →
      l.foldl (consStep s) acc = acc ++ newEntriesFrom s acc.length l := by
  intro l
  induction l with
  | nil =>
      intro acc _ _
      simp [newEntriesFrom]
  | cons f rest ih =>
      intro acc hnd hnew
      have hlf : lookupEntry (keyOf f) acc = none := hnew f (List.mem_cons_self _ _)
      rw [List.foldl_cons, consStep_new s acc f hlf]
      have hhead : keyOf f ∉ rest.map keyOf :=
        (List.nodup_cons.mp (by simpa using hnd)).1
      have hrest : ∀ g ∈ rest, lookupEntry (keyOf g)
          (acc ++ [(keyOf f, ({ f with id := s acc.length }, initPayloads f))]) =
            none := by
        intro g hg
        rw [lookupEntry_append, hnew g (List.mem_cons_of_mem _ hg)]
        dsimp only
        rw [if_neg (fun hh => hhead (by rw [hh]; exact List.mem_map_of_mem keyOf hg))]
      have := ih (acc ++ [(keyOf f, ({ f with id := s acc.length }, initPayloads f))])
        ((List.nodup_cons.mp (by simpa using hnd)).2) hrest
      rw [this]
      simp [newEntriesFrom, List.append_assoc]

lemma finalFun_initPayloads (f : FindingE) (idv : String) :
    finalFun (({ f with id := idv } : FindingE), initPayloads f) =
      { f with id := idv } := by
  unfold finalFun
  rw [if_neg]
  unfold initPayloads
  split <;> simp

lemma newEntriesFrom_final (s : ℕ → String) :
    ∀ (l : List FindingE) (k : ℕ),
      (newEntriesFrom s k l).map (fun p => finalFun p.2) = reassignIds s k l := by
  intro l
  induction l with
  | nil => intro k; rfl
  | cons f rest ih =>
      intro k
      simp only [newEntriesFrom, List.map_cons, reassignIds]
      rw [finalFun_initPayloads, ih (k+1)]

lemma consolidate_nodup_eq (s : ℕ → String) (l : List FindingE)
    (h : (l.map keyOf).Nodup) :
    consolidateVulnerabilities s l = reassignIds s 0 l := by
  unfold consolidateVulnerabilities consolidateCore
  cases l with
  | nil => simp [reassignIds]
  | cons f rest =>
      rw [if_neg (by simp)]
      rw [foldl_all_new s (f :: rest) [] h (fun g _ => rfl)]
      rw [List.nil_append]
      exact newEntriesFrom_final s (f :: rest) 0

lemma reassignIds_eraseId (s : ℕ → String) :
    ∀ (l : List FindingE) (k : ℕ),
      (reassignIds s k l).map eraseId = l.map eraseId := by
  intro l
  induction l with
  | nil => intro k; rfl
  | cons f rest ih =>
      intro k
      simp only [reassignIds, List.map_cons]
      rw [ih (k+1)]
      rfl

/-- A consolidated UNION finding used in the concrete idempotence runs. -/
def c7Finding : FindingE :=
  { id := "raw-id"
    name := "UNION-based SQL Injection"
    description := "UNION-based SQL injection vulnerability detected in url parameter: id"
    severity := "high"
    location := "/x"
    evidence := "Parameter 'id' with payload 'p1' reflected marker 'SQLi1337M1' in the response. Column count: 3"
    remediation := "Use parameterized queries or prepared statements. Validate and sanitize all user inputs." }

/-- A medium-severity raw finding on `(location "/x", parameter "id")`. -/
def c8Medium : FindingE :=
  { id := "m-id"
    name := "SQL Injection"
    description := "d"
    severity := "medium"
    location := "/x"
    evidence := "Parameter 'id' with payload 'p1' used"
    remediation := "r" }

/-- A critical-severity raw finding on the same `(location, parameter)`. -/
def c8Critical : FindingE :=
  { id := "c-id"
    name := "SQL Injection"
    description := "d"
    severity := "critical"
    location := "/x"
    evidence := "Parameter 'id' with payload 'p2' used"
    remediation := "r" }

/-- The payload-request/verify-request schedule of the concrete UNION
evaluation: the test response reflects the first marker, the follow-up
response reflects the fresh verification marker. -/
def c4Oracle : ℕ → Option String :=
  fun k =>
    if k = 0 then some "<p>SQLi1337M1</p>"
    else if k = 1 then some "<p>SQLiVerify1000</p>"
    else none

/-- A sampled single-column UNION payload. -/
def c4Payloads : List (String × ℕ) := [("' UNION SELECT 'SQLi1337M1' --", 1)]

end EnhScanner

/-- C4: a UNION-based Finding is emitted only after a successful
confirmation round: whenever `_test_union_sqli` returns a Finding, some
confirmation request — carrying a fresh `SQLiVerify…` marker, distinct from
every `SQLi1337M…` marker, injected at the column that matched — received a
response containing that fresh marker.  A single reflected marker alone
never produces a Finding. -/
theorem C4_union_needs_second_marker (baseline : String)
    (payloads : List (String × ℕ)) (oracle : ℕ → Option String) (rng : ℕ → ℕ)
    (newId url param locationType : String) (f : EnhScanner.FindingE)
    (h : (EnhScanner.testUnionSqli baseline payloads oracle rng newId url param
      locationType).2 = some f) :
    ∃ c ∈ (EnhScanner.testUnionSqli baseline payloads oracle rng newId url
        param locationType).1.confirms,
      c.ok = true ∧ c.marker ∉ EnhScanner.unionMarkers := by
  obtain ⟨c, hc, hok, n, hn⟩ := EnhScanner.unionPayloadLoop_some_confirm
    baseline oracle rng newId url param locationType payloads ⟨0, 0, []⟩ f h
  refine ⟨c, hc, hok, ?_⟩
  intro hmem
  exact EnhScanner.verifyMarker_ne_base n c.marker hmem hn.symm

/-- C4 witness: a concrete run in which the first marker is reflected and
the follow-up response carries the fresh marker, so a Finding is returned
together with its successful confirmation. -/
theorem C4_union_needs_second_marker_witness :
    ∃ c ∈ (EnhScanner.testUnionSqli "clean" EnhScanner.c4Payloads
        EnhScanner.c4Oracle (fun _ => 0) "uid" "http://target/item" "id"
        "url").1.confirms,
      c.ok = true ∧ c.marker ∉ EnhScanner.unionMarkers :=
  C4_union_needs_second_marker "clean" EnhScanner.c4Payloads EnhScanner.c4Oracle
    (fun _ => 0) "uid" "http://target/item" "id" "url"
    (EnhScanner.mkUnionFinding "uid" "http://target/item" "id" "url"
      "' UNION SELECT 'SQLi1337M1' --" "SQLi1337M1" 1)
    (by decide)

/-- C5: the boolean payload generator emits payloads in order FALSE, FALSE,
TRUE, TRUE for each quote/parenthesis combination, so the pairing loop —
which requires a TRUE payload at an even index followed by a FALSE payload —
accepts zero pairs: for every random stream, parameter value, fingerprint
function and response oracle the boolean-based branch issues no request,
flags nothing and returns no Finding. -/
theorem C5_boolean_branch_dead (rng : ℕ → ℕ) (param : String)
    (fingerprint : String → String) (url : String) (baseline : NewScanner.RespB)
    (oracle : ℕ → Option NewScanner.RespB) :
    NewScanner.booleanBlindDetect fingerprint url param baseline
      (NewScanner.generateBooleanTestPayloads rng param) oracle = (0, [], none) :=
  rfl

/-- C1 counterexample: with the spec's own example responses (baseline
`"Welcome"`, TRUE response `"Welcome"`, FALSE response
`"Error: access denied"`), a single flagged TRUE/FALSE pair — the only pair
tested — immediately produces a boolean-blind Finding; no reconfirmation
with a different pair takes place. -/
theorem C1_single_flagged_pair_reported :
    (NewScanner.booleanBlindDetect NewScanner.fingerprintPlain "http://target/item"
        "id" ⟨"Welcome", 200⟩ NewScanner.c1PayloadPair NewScanner.c1Oracle).2.1.length = 1 ∧
    (NewScanner.booleanBlindDetect NewScanner.fingerprintPlain "http://target/item"
        "id" ⟨"Welcome", 200⟩ NewScanner.c1PayloadPair NewScanner.c1Oracle).2.2.isSome = true := by
  unfold NewScanner.booleanBlindDetect
  dsimp only
  rw [NewScanner.fingerprintPlain_Welcome, NewScanner.c1_pairLoop_eval]
  simp [NewScanner.maxByDifference]

/-- C1 (amended): the boolean-blind branch reports a Finding exactly when at
least one TRUE/FALSE pair is flagged by the similarity/length/status
criteria; the Finding is built from the best-scoring flagged pair with no
reconfirmation round, so a single flagged pair suffices. -/
theorem C1_finding_iff_some_flagged_pair (fingerprint : String → String)
    (url param : String) (baseline : NewScanner.RespB)
    (payloads : List NewScanner.BoolPayload) (oracle : ℕ → Option NewScanner.RespB) :
    (NewScanner.booleanBlindDetect fingerprint url param baseline payloads oracle).2.2.isSome ↔
      (NewScanner.booleanBlindDetect fingerprint url param baseline payloads oracle).2.1 ≠ [] :=
  NewScanner.booleanBlindDetect_some_iff fingerprint url param baseline payloads oracle

/-- C2 counterexample: a single delayed probe response (5 s, exceeding the
threshold) immediately yields a Finding after exactly one probe request —
there is no second identical test, contradicting ‘a first delayed response
exceeding the threshold triggers a second identical test … emitted exactly
when both responses exceed the threshold’.  The baseline is also not an
average of 3 timed requests: the response dictionary carries no `elapsed`
key, so the code always uses the 0.5 s default, and the threshold is
`max(2·baseline, 4.0)`, not `max(2.5, 2·baseline)`. -/
theorem C2_single_delay_counterexample :
    (NewScanner.timeBlindSection "http://target/item" "id" NewScanner.c2Baseline
        NewScanner.c2Oracle).1 = 1 ∧
    (NewScanner.timeBlindSection "http://target/item" "id" NewScanner.c2Baseline
        NewScanner.c2Oracle).2.map NewScanner.FindingN.severity = some "high" ∧
    (NewScanner.timeBlindSection "http://target/item" "id" NewScanner.c2Baseline
        NewScanner.c2Oracle).2.map
          (fun f => strContains f.evidence "5.00") = some true ∧
    (NewScanner.timeBlindSection "http://target/item" "id" NewScanner.c2Baseline
        NewScanner.c2Oracle).2.map
          (fun f => strContains f.evidence "0.50") = some true := by
  rw [NewScanner.c2_timeBlind_eval]
  refine ⟨rfl, rfl, ?_, ?_⟩
  · show some (strContains (NewScanner.mkTimeFinding "http://target/item" "id"
        ("id" ++ "'" ++ " AND SLEEP(" ++ toString NewScanner.timeDelay ++ ") -- ")
        (NewScanner.ProbeKind.timed "MYSQL") 5 (1/2)).evidence "5.00") = some true
    rw [NewScanner.mkTimeFinding_evidence, ← NewScanner.format2f_five,
      NewScanner.timeEvidence_contains_elapsed]
  · show some (strContains (NewScanner.mkTimeFinding "http://target/item" "id"
        ("id" ++ "'" ++ " AND SLEEP(" ++ toString NewScanner.timeDelay ++ ") -- ")
        (NewScanner.ProbeKind.timed "MYSQL") 5 (1/2)).evidence "0.50") = some true
    rw [NewScanner.mkTimeFinding_evidence, ← NewScanner.format2f_half,
      NewScanner.timeEvidence_contains_baseline]

/-- C2 (amended): the baseline latency is the single baseline request's
`elapsed` field, which is absent, so the 0.5 s default always applies; the
delay threshold is `max(2·baseline, 0.8·5 s)` for the DBMS delay payloads
and `3·baseline` for the heavy queries; the *first* response exceeding its
threshold immediately yields a high-severity Finding whose evidence string
contains both measured values (delay and baseline, two-decimal formatted);
no second identical test is issued (the request count is exactly the index
of the hit plus one). -/
theorem C2_time_blind_amended (url param : String)
    (baseline : NewScanner.PerformResp) (oracle : ℕ → Bool × ℚ) (n : ℕ)
    (f : NewScanner.FindingN)
    (h : NewScanner.timeBlindSection url param baseline oracle = (n, some f)) :
    NewScanner.baselineResponseTime baseline = 1/2 ∧
    f.severity = "high" ∧
    ∃ i p kind, (NewScanner.timeProbeList param).get? i = some (p, kind) ∧
      n = i + 1 ∧ (oracle i).1 = true ∧
      (oracle i).2 > NewScanner.probeThreshold (1/2) kind ∧
      f.evidence = NewScanner.timeEvidence p ((oracle i).2) (1/2) ∧
      strContains f.evidence (NewScanner.format2f ((oracle i).2)) = true ∧
      strContains f.evidence (NewScanner.format2f (1/2)) = true := by
  have h' : NewScanner.timeProbeRun url param (1/2) oracle
      (NewScanner.timeProbeList param) 0 = (n, some f) := h
  obtain ⟨i, p, kind, hget, hn, ho1, ho2, hf⟩ :=
    NewScanner.timeProbeRun_some url param (1/2) oracle
      (NewScanner.timeProbeList param) 0 n f h'
  rw [Nat.zero_add] at ho1 ho2 hf
  refine ⟨rfl, ?_, i, p, kind, hget, hn, ho1, ho2, ?_, ?_, ?_⟩
  · rw [hf]; exact NewScanner.mkTimeFinding_severity url param p kind _ _
  · rw [hf]; exact NewScanner.mkTimeFinding_evidence url param p kind _ _
  · rw [hf, NewScanner.mkTimeFinding_evidence]
    exact NewScanner.timeEvidence_contains_elapsed p _ _
  · rw [hf, NewScanner.mkTimeFinding_evidence]
    exact NewScanner.timeEvidence_contains_baseline p _ _

/-- C2 witness: the amended theorem applied to the concrete single-delay
run. -/
theorem C2_time_blind_amended_witness :
    (NewScanner.mkTimeFinding "http://target/item" "id"
      ("id" ++ "'" ++ " AND SLEEP(" ++ toString NewScanner.timeDelay ++ ") -- ")
      (NewScanner.ProbeKind.timed "MYSQL") 5 (1/2)).severity = "high" :=
  (C2_time_blind_amended "http://target/item" "id" NewScanner.c2Baseline
    NewScanner.c2Oracle 1 _ NewScanner.c2_timeBlind_eval).2.1

/-- C3: the claim is right and the code is wrong (code bug).  The code's
own comments (lines 1719 and 1738) state that a match already present in
the baseline is to be skipped as a false positive, but the implemented
guard `has_baseline_errors and response_text == baseline_content` only
skips responses byte-identical to the baseline.  Concretely: the baseline
contains `ORA-00001` (so `has_baseline_errors` is true and the `ora-[0-9]`
pattern matches it), the payload response contains the same error text but
differs from the baseline, and `_test_error_sqli` nevertheless returns a
Finding. -/
theorem C3_baseline_pattern_still_reported :
    ([NewScanner.oraErrorPattern].any (fun p => p NewScanner.c3Baseline) = true) ∧
    (NewScanner.oraErrorPattern NewScanner.c3Response = true) ∧
    (NewScanner.c3Response ≠ NewScanner.c3Baseline) ∧
    (NewScanner.testErrorSqli [NewScanner.oraErrorPattern] (fun _ => "Oracle")
        (fun r => r) "http://target/item" "id" "1" ["'"]
        NewScanner.c3Baseline NewScanner.c3Oracle).isSome = true := by
  decide

/-- C10: the request engine (retry budget 3) retries only failures
classified transient (network/timeout errors, connection-reset-style
messages, and HTTP 429/502/503/504), sleeping
`min(60, 2^retryCount) * jitter` with the jitter drawn from [0.75, 1.25]
between attempts; failures classified critical (500/501/401/403, and
anything not matching a transient rule) end the loop at once with no
response; every attempt is reported to the rate limiter (success with its
elapsed time, error with its classified kind, in order); at most 4 attempts
(3 retries) are made; and when every attempt fails the engine returns no
response rather than raising. -/
theorem C10_request_engine (out : ℕ → NewScanner.Attempt) (jitter : ℕ → ℚ)
    (hj : ∀ k, 3/4 ≤ jitter k ∧ jitter k ≤ 5/4) :
    (∀ e : NewScanner.ErrInfo,
      (e.isNetworkExc = true ∨
        strContains (strLower e.msg) "connection reset" = true ∨
        strContains (strLower e.msg) "broken pipe" = true ∨
        strContains (strLower e.msg) "connection refused" = true ∨
        strContains (strLower e.msg) "timeout" = true ∨
        strContains (strLower e.msg) "timed out" = true) →
      NewScanner.classifyError e = "transient") ∧
    (∀ e : NewScanner.ErrInfo,
      (e.status = some 429 ∨ e.status = some 503 ∨ e.status = some 502 ∨
        e.status = some 504) →
      NewScanner.classifyError e = "transient") ∧
    (∀ e : NewScanner.ErrInfo, e.isNetworkExc = false →
      strContains (strLower e.msg) "connection reset" = false →
      strContains (strLower e.msg) "broken pipe" = false →
      strContains (strLower e.msg) "connection refused" = false →
      strContains (strLower e.msg) "timeout" = false →
      strContains (strLower e.msg) "timed out" = false →
      ¬(e.status = some 429 ∨ e.status = some 503 ∨ e.status = some 502 ∨
          e.status = some 504) →
      NewScanner.classifyError e = "critical") ∧
    (NewScanner.runEngine out jitter 3).attempts ≤ 4 ∧
    (NewScanner.runEngine out jitter 3).reports =
      (List.range (NewScanner.runEngine out jitter 3).attempts).map
        (NewScanner.expectedReport out) ∧
    (∀ k, k + 1 < (NewScanner.runEngine out jitter 3).attempts →
      ∃ e, out k = .err e ∧ NewScanner.classifyError e = "transient") ∧
    (∀ k e, k < (NewScanner.runEngine out jitter 3).attempts →
      out k = .err e → NewScanner.classifyError e = "critical" →
      (NewScanner.runEngine out jitter 3).attempts = k + 1 ∧
        (NewScanner.runEngine out jitter 3).result = none) ∧
    (NewScanner.runEngine out jitter 3).sleeps =
      (List.range' 1 ((NewScanner.runEngine out jitter 3).attempts - 1)).map
        (fun k => ((min 60 (2 ^ k) : ℕ) : ℚ) * jitter k) ∧
    (∀ q ∈ (NewScanner.runEngine out jitter 3).sleeps,
      ∃ k, (3/4) * ((min 60 (2 ^ k) : ℕ) : ℚ) ≤ q ∧
        q ≤ (5/4) * ((min 60 (2 ^ k) : ℕ) : ℚ)) ∧
    ((∀ k, k < 4 → ∀ r el, out k ≠ .ok r el) →
      (NewScanner.runEngine out jitter 3).result = none) := by
  refine ⟨?_, ?_, ?_, ?_, ?_, ?_, ?_, ?_, ?_, ?_⟩
  · intro e he
    unfold NewScanner.classifyError
    rcases he with h | h | h | h | h | h <;> simp [h]
  · intro e he
    unfold NewScanner.classifyError
    dsimp only
    split_ifs <;> rfl
  · intro e h1 h2 h3 h4 h5 h6 h7
    unfold NewScanner.classifyError
    simp [h1, h2, h3, h4, h5, h6, h7]
  · exact NewScanner.engineGo_attempts_le out jitter 3 4 0
  · rw [List.range_eq_range']
    exact NewScanner.engineGo_reports out jitter 3 4 0
  · intro k hk
    simpa using NewScanner.engineGo_middle_transient out jitter 3 4 0 k hk
  · intro k e hk hke hcrit
    simpa using NewScanner.engineGo_critical_stops out jitter 3 4 0 k e hk
      (by simpa using hke) hcrit
  · exact NewScanner.engineGo_sleeps out jitter 3 4 0 (by omega)
  · intro q hq
    have hs := NewScanner.engineGo_sleeps out jitter 3 (3+1) 0 (by omega)
    have hq' : q ∈ (List.range' (0+1)
        ((NewScanner.engineGo out jitter 3 0 (3+1)).attempts - 1)).map
          (fun k => ((min 60 (2 ^ k) : ℕ) : ℚ) * jitter k) := by
      rw [← hs]
      exact hq
    rw [List.mem_map] at hq'
    obtain ⟨k, _, hk⟩ := hq'
    refine ⟨k, ?_, ?_⟩
    · rw [← hk]
      have hm : (0:ℚ) ≤ ((min 60 (2 ^ k) : ℕ) : ℚ) := by positivity
      nlinarith [(hj k).1]
    · rw [← hk]
      have hm : (0:ℚ) ≤ ((min 60 (2 ^ k) : ℕ) : ℚ) := by positivity
      nlinarith [(hj k).2]
  · intro hall
    rcases hres : (NewScanner.runEngine out jitter 3).result with _ | r
    · rfl
    · obtain ⟨k, e, hk, hok⟩ := NewScanner.engineGo_some_ok out jitter 3 4 0 r hres
      have hk4 : k < 4 :=
        lt_of_lt_of_le (by simpa using hk)
          (NewScanner.engineGo_attempts_le out jitter 3 4 0)
      exact absurd (by simpa using hok) (hall k hk4 r e)

/-- C10 witness: the request engine applied to a concrete schedule — a
transient 503 failure followed by a success — makes at most 4 attempts. -/
theorem C10_request_engine_witness :
    (NewScanner.runEngine
      (fun k => if k = 0 then .err ⟨false, "Connection timeout", some 503⟩
                else .ok ⟨200, "ok", "http://target/item", 0⟩ 1)
      (fun _ => 1) 3).attempts ≤ 4 :=
  (C10_request_engine
    (fun k => if k = 0 then .err ⟨false, "Connection timeout", some 503⟩
              else .ok ⟨200, "ok", "http://target/item", 0⟩ 1)
    (fun _ => 1) (by intro k; norm_num)).2.2.2.1

/-- C7 counterexample: consolidation is not idempotent, because every
application assigns a fresh identity (`str(uuid.uuid4())`, line 497) to
each output entry.  Re-consolidating the consolidated singleton list with
the next identifier the generator draws yields a list differing in the
`id` field. -/
theorem C7_fresh_ids_counterexample :
    EnhScanner.consolidateVulnerabilities (fun _ => "id-b")
        (EnhScanner.consolidateVulnerabilities (fun _ => "id-a")
          [EnhScanner.c7Finding]) ≠
      EnhScanner.consolidateVulnerabilities (fun _ => "id-a")
        [EnhScanner.c7Finding] := by
  decide

/-- C7 (amended): consolidation is idempotent only up to the freshly
assigned identities, and only when the consolidated output's re-extracted
`(location, parameter)` keys are pairwise distinct: under that condition a
second application preserves every field except `id`.  (Strict idempotence
fails because each application draws fresh `uuid4` identities; moreover,
merged evidence strings can lose the parameter name, so a second
application may group differently when re-extracted keys collide.) -/
theorem C7_idempotent_up_to_ids (s1 s2 : ℕ → String) (l : List EnhScanner.FindingE)
    (h : ((EnhScanner.consolidateVulnerabilities s1 l).map EnhScanner.keyOf).Nodup) :
    (EnhScanner.consolidateVulnerabilities s2
        (EnhScanner.consolidateVulnerabilities s1 l)).map EnhScanner.eraseId =
      (EnhScanner.consolidateVulnerabilities s1 l).map EnhScanner.eraseId := by
  rw [EnhScanner.consolidate_nodup_eq s2 _ h, EnhScanner.reassignIds_eraseId]

/-- C7 witness: the amended statement applied to the concrete singleton
run. -/
theorem C7_idempotent_up_to_ids_witness :
    (EnhScanner.consolidateVulnerabilities (fun _ => "id-b")
        (EnhScanner.consolidateVulnerabilities (fun _ => "id-a")
          [EnhScanner.c7Finding])).map EnhScanner.eraseId =
      (EnhScanner.consolidateVulnerabilities (fun _ => "id-a")
        [EnhScanner.c7Finding]).map EnhScanner.eraseId :=
  C7_idempotent_up_to_ids (fun _ => "id-a") (fun _ => "id-b")
    [EnhScanner.c7Finding] (by decide)

/-- C8: consolidation groups findings by the dict key
`location:parameter` (the parameter extracted from the evidence or
description text); the resulting dict holds exactly one entry per distinct
key — a key is absent exactly when no input finding carries it — and the
entry's severity is one of the group's severities and dominates the whole
group under `severity_levels` (`critical > high > medium > low > info`),
i.e. it is the maximum severity observed.  In particular, the two raw
findings on `(location "/x", parameter "id")` with severities `medium` and
`critical` consolidate into a single Finding with severity `critical`. -/
theorem C8_consolidation_grouping_max_severity :
    (∀ (fresh : ℕ → String) (l : List EnhScanner.FindingE) (k : String)
        (e : EnhScanner.Entry),
      EnhScanner.lookupEntry k (EnhScanner.consolidateCore fresh l) = some e →
      e.1.severity ∈ EnhScanner.groupSevs k l ∧
        ∀ sv ∈ EnhScanner.groupSevs k l,
          EnhScanner.severityLevels sv ≤ EnhScanner.severityLevels e.1.severity) ∧
    (∀ (fresh : ℕ → String) (l : List EnhScanner.FindingE),
      ((EnhScanner.consolidateCore fresh l).map Prod.fst).Nodup) ∧
    (∀ (fresh : ℕ → String) (l : List EnhScanner.FindingE) (k : String),
      EnhScanner.lookupEntry k (EnhScanner.consolidateCore fresh l) = none ↔
        EnhScanner.groupSevs k l = []) ∧
    (EnhScanner.consolidateVulnerabilities (fun _ => "cid")
      [EnhScanner.c8Medium, EnhScanner.c8Critical]).map
        (fun f => f.severity) = ["critical"] := by
  refine ⟨?_, ?_, ?_, ?_⟩
  · intro fresh l k e he
    exact (EnhScanner.core_sevInv fresh l).1 k e he
  · intro fresh l
    exact EnhScanner.core_keys_nodup fresh l [] (by simp)
  · intro fresh l k
    constructor
    · exact (EnhScanner.core_sevInv fresh l).2 k
    · intro hempty
      rcases hk : EnhScanner.lookupEntry k (EnhScanner.consolidateCore fresh l)
        with _ | e
      · rfl
      · have := ((EnhScanner.core_sevInv fresh l).1 k e hk).1
        rw [hempty] at this
        cases this
  · decide

set_option maxRecDepth 8192 in
/-- C8 witness: the grouping/severity statement applied to the concrete
two-finding group, whose stored entry carries severity `critical`. -/
theorem C8_consolidation_witness :
    (EnhScanner.mergeEntry EnhScanner.c8Critical "p2"
        ({ EnhScanner.c8Medium with id := "cid" }, ["p1"])).1.severity ∈
      EnhScanner.groupSevs "/x:id" [EnhScanner.c8Medium, EnhScanner.c8Critical] ∧
    ∀ sv ∈ EnhScanner.groupSevs "/x:id"
        [EnhScanner.c8Medium, EnhScanner.c8Critical],
      EnhScanner.severityLevels sv ≤ EnhScanner.severityLevels
        (EnhScanner.mergeEntry EnhScanner.c8Critical "p2"
          ({ EnhScanner.c8Medium with id := "cid" }, ["p1"])).1.severity :=
  C8_consolidation_grouping_max_severity.1 (fun _ => "cid")
    [EnhScanner.c8Medium, EnhScanner.c8Critical] "/x:id"
    (EnhScanner.mergeEntry EnhScanner.c8Critical "p2"
      ({ EnhScanner.c8Medium with id := "cid" }, ["p1"]))
    (by decide)

/-- C9: the boolean-blind similarity measure is symmetric, and the
self-similarity of every *nonempty* fingerprint is exactly 1.0 (the
as-stated claim fails at the empty body, whose fingerprint is empty; see the
counterexample). -/
theorem C9_similarity_selfsim_and_symm :
    (∀ a : String, a.length ≠ 0 → NewScanner.similarityScore a a = 1) ∧
    (∀ a b : String, NewScanner.similarityScore a b = NewScanner.similarityScore b a) :=
  ⟨NewScanner.similarityScore_self, NewScanner.similarityScore_comm⟩

/-- C9 witness: the amended self-similarity statement applied to the
concrete fingerprint of the body `"Welcome"`. -/
theorem C9_similarity_selfsim_witness :
    NewScanner.similarityScore (NewScanner.fingerprintPlain "Welcome")
      (NewScanner.fingerprintPlain "Welcome") = 1 :=
  C9_similarity_selfsim_and_symm.1 (NewScanner.fingerprintPlain "Welcome") (by decide)

/-- C9 counterexample: for the empty body the fingerprint is the empty
string and `_similarity_score` returns 0.0, not 1.0 (`if not str1 or not
str2: return 0.0`), so `similarity(fingerprint(x), fingerprint(x)) = 1.0`
fails at `x = ""`. -/
theorem C9_empty_body_counterexample :
    NewScanner.similarityScore (NewScanner.fingerprintPlain "")
      (NewScanner.fingerprintPlain "") = 0 := by
  decide

/-- C6: for every host, after any sequence of well-formed `acquire`,
`report_error`, `report_success` calls (monotone clock, base rate at least
the 0.1 req/s minimum, non-negative burst capacity), the current rate limit
stays within `[min_rate_limit, max_rate_limit]` where the maximum is 5× the
configured base rate, and the token count stays within `[0, burst_limit]`. -/
theorem C6_rate_limiter_invariant (c : NewScanner.RLConfig)
    (hbase : 1/10 ≤ c.rateLimit) (hburst : 0 ≤ c.burstLimit)
    (evs : List NewScanner.RLEvent) (hwf : ∀ ev ∈ evs, ev.wf) :
    NewScanner.RLInv c (NewScanner.RLState.run c evs) :=
  NewScanner.RLInv.foldl c hbase evs hwf _ (NewScanner.RLInv.init c hbase hburst)

/-- C6 witness: the invariant holds concretely for the default
configuration (base rate 2.0 req/s, burst 5) after an error, an acquire and
a success. -/
theorem C6_rate_limiter_invariant_witness :
    NewScanner.RLInv ⟨2, 5⟩
      (NewScanner.RLState.run ⟨2, 5⟩
        [.reportError true, .acquire 1, .reportSuccess (3/10)]) :=
  C6_rate_limiter_invariant ⟨2, 5⟩ (by norm_num) (by norm_num)
    [.reportError true, .acquire 1, .reportSuccess (3/10)]
    (by intro ev hev; fin_cases hev <;> simp [NewScanner.RLEvent.wf])
